import Mathlib

/-!
# Squirrel MERGE builder: embedding of `merge.go`

The statement data `mergeData`, its renderer `mergeData.ToSql`, the execution
entry points `Exec`, `Query`, `QueryRow`, and the chainable `MergeBuilder`
methods are translated from `merge.go`.  Go values are embedded as follows.

* `string` is `String`; `[]interface{}` is `List Value` (a nil slice is `[]`).
* `error` is `Option Error` (`none` is the nil error).
* An interface value that may be nil (`Sqlizer`, `PlaceholderFormat`,
  `BaseRunner`) and the pointer `*wherePart` are `Option`s, `none` being nil.
* `*bytes.Buffer` is passed explicitly: a helper that writes to the buffer takes
  the text written so far and gives back the extended text.
* A method call on a nil interface does not return; `Outcome.nilDeref` records it.

Helpers that `merge.go` calls but does not define are modelled from the
specification and say so in their doc comments.
-/

namespace Squirrel

/-! ## Values, errors, results -/

/-- A positional argument (`interface{}` in the Go source). -/
inductive Value where
  | int (n : Int)
  | str (s : String)
  | null
  deriving DecidableEq, Repr

/-- Go `error` values met by `merge.go`: those built by `fmt.Errorf`, and the two
package-level sentinels `RunnerNotSet` and `RunnerNotQueryRunner` (declared outside
`merge.go`; only their identity matters here). -/
inductive Error where
  | errorf (msg : String)
  | RunnerNotSet
  | RunnerNotQueryRunner
  deriving DecidableEq, Repr

/-- The triple `(sqlStr string, args []interface{}, err error)` returned by every
`ToSql` method. -/
structure SqlResult where
  sqlStr : String
  args : List Value
  err : Option Error
  deriving DecidableEq, Repr

/-- Either the call returned a value, or it dereferenced a nil interface. -/
inductive Outcome (α : Type) where
  | returned (a : α)
  | nilDeref
  deriving DecidableEq, Repr

/-- The `Sqlizer` interface: anything with a `ToSql` method.  The method takes no
argument besides its receiver, so a non-nil `Sqlizer` is given by what it returns. -/
structure Sqlizer where
  ToSql : SqlResult
  deriving DecidableEq, Repr

/-! ## Expressions and clause lists -/

/-- Modelled from the spec: the `expr` struct (declared outside `merge.go`),
"raw SQL text plus zero or more positional arguments". -/
structure expr where
  sql : String
  args : List Value
  deriving DecidableEq, Repr

/-- Modelled from the spec: the constructor `Expr(sql, args...)` (defined outside
`merge.go`), which builds an expression from its text and its arguments. -/
def Expr (sql : String) (args : List Value) : expr :=
  { sql := sql, args := args }

/-- Modelled from the spec: `expr.ToSql` (defined outside `merge.go`).  An
expression renders to its literal text and its arguments in declared order, and
has no failure condition. -/
def expr.ToSql (e : expr) : SqlResult :=
  { sqlStr := e.sql, args := e.args, err := none }

/-- An `expr` used where a `Sqlizer` is expected (Go interface conversion). -/
def expr.toSqlizer (e : expr) : Sqlizer :=
  { ToSql := e.ToSql }

/-- The clause list type `exprs` (`[]expr`). -/
abbrev exprs := List expr

/-- Loop of `exprs.AppendToSql`, started at index `i` with buffer `w`. -/
def exprs.AppendToSqlFrom (sep : String) : Nat → List expr → String → List Value →
    String × List Value
  | _, [], w, args => (w, args)
  | i, e :: es, w, args =>
    exprs.AppendToSqlFrom sep (i + 1) es
      ((if i > 0 then w ++ sep else w) ++ e.sql) (args ++ e.args)

/-- Modelled from the spec: `exprs.AppendToSql` (defined outside `merge.go`).  It
"renders each contained Expression in sequence, inserting the separator between
(not before/after) elements, and returns the arguments collected across all
elements in order", writing into the shared buffer `w`.  Its error result is
discarded by `mergeData.ToSql` and is left out. -/
def exprs.AppendToSql (es : exprs) (w : String) (sep : String) (args : List Value) :
    String × List Value :=
  exprs.AppendToSqlFrom sep 0 es w args

/-- Loop of `appendToSql`, started at index `i` with buffer `w`. -/
def appendToSqlFrom (sep : String) : Nat → List Sqlizer → String → List Value →
    String × List Value × Option Error
  | _, [], w, args => (w, args, none)
  | i, p :: ps, w, args =>
    match p.ToSql.err with
    | some e => (w, [], some e)
    | none =>
      appendToSqlFrom sep (i + 1) ps
        ((if i > 0 then w ++ sep else w) ++ p.ToSql.sqlStr) (args ++ p.ToSql.args)

/-- Modelled from the spec: the package function `appendToSql` (defined outside
`merge.go`).  Each part is rendered by its own `ToSql`; its text is written to the
buffer, with the separator between parts, and its arguments are spliced in with no
reordering.  A part that fails stops the loop and its error is returned.  The spec
does not say which argument list accompanies an error; the model gives the nil
list, and nothing below depends on that choice. -/
def appendToSql (parts : List Sqlizer) (w : String) (sep : String) (args : List Value) :
    String × List Value × Option Error :=
  appendToSqlFrom sep 0 parts w args

/-! ## The ON predicate -/

/-- The first argument of `On`: a literal predicate string or a predicate
expression object. -/
inductive Pred where
  | str (s : String)
  | sqlizer (z : Sqlizer)
  deriving DecidableEq, Repr

/-- Modelled from the spec: the `wherePart` struct (declared outside `merge.go`),
a predicate together with the trailing positional arguments. -/
structure wherePart where
  pred : Pred
  args : List Value
  deriving DecidableEq, Repr

/-- Modelled from the spec: `newWherePart(pred, args...)` (defined outside
`merge.go`). -/
def newWherePart (pred : Pred) (args : List Value) : wherePart :=
  { pred := pred, args := args }

/-- Modelled from the spec: `wherePart.ToSql` (defined outside `merge.go`).  The
string form renders as the expression made of the string and the trailing
arguments; an expression object renders itself. -/
def wherePart.ToSql (p : wherePart) : SqlResult :=
  match p.pred with
  | .str s => { sqlStr := s, args := p.args, err := none }
  | .sqlizer z => z.ToSql

/-- A `*wherePart` used where a `Sqlizer` is expected. -/
def wherePart.toSqlizer (p : wherePart) : Sqlizer :=
  { ToSql := p.ToSql }

/-! ## Placeholder formats and runners -/

/-- The `PlaceholderFormat` interface: `ReplacePlaceholders(sql) (string, error)`. -/
structure PlaceholderFormat where
  ReplacePlaceholders : String → String × Option Error

/-- Modelled from the spec: the built-in format `Question` (defined outside
`merge.go`), the positional `?` style, which does not rewrite. -/
def Question : PlaceholderFormat :=
  { ReplacePlaceholders := fun sql => (sql, none) }

/-- Rewrites the markers of a character list, the next marker getting number `i`. -/
def dollarChars : Nat → List Char → List Char
  | _, [] => []
  | i, c :: cs =>
    if c = '?' then ('$' :: (Nat.repr i).data) ++ dollarChars (i + 1) cs
    else c :: dollarChars i cs

/-- Modelled from the spec: the built-in format `Dollar` (defined outside
`merge.go`), a sequential numbered style: the k-th `?` of the text it is given
becomes `$k`. -/
def Dollar : PlaceholderFormat :=
  { ReplacePlaceholders := fun sql => (String.mk (dollarChars 1 sql.data), none) }

/-- Modelled from the spec: the runner handle `BaseRunner` (an interface declared
outside `merge.go`).  `isQueryRower` is the outcome of the type assertion
`d.RunWith.(QueryRower)`: whether the backend can also produce a single row. -/
structure BaseRunner where
  name : String
  isQueryRower : Bool
  deriving DecidableEq, Repr

/-- The `Row` struct (declared outside `merge.go`): a scanner, when there is one,
and the error that surfaces when the caller reads the row. -/
structure Row (S : Type) where
  RowScanner : Option S
  err : Option Error
  deriving DecidableEq, Repr

/-! ## Statement data (`merge.go`, lines 12-24) -/

/-- The struct `mergeData`. -/
structure mergeData where
  PlaceholderFormat : Option Squirrel.PlaceholderFormat
  RunWith : Option BaseRunner
  Prefixes : exprs
  Table : String
  Using : Option Sqlizer
  On : Option wherePart
  WhenMatched : Option Sqlizer
  WhenNotMatched : Option Sqlizer
  Suffixes : exprs
  Output : List String
  OutputInto : String

/-- The zero value `mergeData{}`. -/
def mergeData.zero : mergeData :=
  { PlaceholderFormat := none, RunWith := none, Prefixes := [], Table := "",
    Using := none, On := none, WhenMatched := none, WhenNotMatched := none,
    Suffixes := [], Output := [], OutputInto := "" }

/-! ## Execution entry points (`merge.go`, lines 26-49)

`ExecWith`, `QueryWith` and `QueryRowWith` are defined outside `merge.go`; they are
parameters of the entry points. -/

/-- `mergeData.Exec`. -/
def mergeData.Exec {Res : Type} (ExecWith : BaseRunner → mergeData → Option Res × Option Error)
    (d : mergeData) : Option Res × Option Error :=
  match d.RunWith with
  | none => (none, some Error.RunnerNotSet)
  | some r => ExecWith r d

/-- `mergeData.Query`. -/
def mergeData.Query {Rows : Type}
    (QueryWith : BaseRunner → mergeData → Option Rows × Option Error)
    (d : mergeData) : Option Rows × Option Error :=
  match d.RunWith with
  | none => (none, some Error.RunnerNotSet)
  | some r => QueryWith r d

/-- `mergeData.QueryRow`. -/
def mergeData.QueryRow {S : Type} (QueryRowWith : BaseRunner → mergeData → Row S)
    (d : mergeData) : Row S :=
  match d.RunWith with
  | none => { RowScanner := none, err := some Error.RunnerNotSet }
  | some r =>
    if r.isQueryRower then QueryRowWith r d
    else { RowScanner := none, err := some Error.RunnerNotQueryRunner }

/-! ## Rendering (`merge.go`, lines 51-124) -/

/-- `mergeData.ToSql`.  The named results `sqlStr`, `args`, `err` start at their zero
values; `sqlStr` is assigned only by the last statement. -/
def mergeData.ToSql (d : mergeData) : Outcome SqlResult :=
  if d.Table.length = 0 then
    .returned { sqlStr := "", args := [],
                err := some (.errorf "merge statements must specify a target table") }
  else
  match d.Using with
  | none =>
    .returned { sqlStr := "", args := [],
                err := some (.errorf "merge statements must specify a using statement") }
  | some u =>
  match d.On with
  | none =>
    .returned { sqlStr := "", args := [],
                err := some (.errorf "merge statements must specify an on statement") }
  | some o =>
    let sql₀ : String := ""
    let args₀ : List Value := []
    let p := if d.Prefixes.length > 0 then
        ((exprs.AppendToSql d.Prefixes sql₀ " " args₀).1 ++ " ",
         (exprs.AppendToSql d.Prefixes sql₀ " " args₀).2)
      else (sql₀, args₀)
    let sql₁ := p.1 ++ "MERGE INTO " ++ d.Table ++ " USING "
    let r₁ := appendToSql [u] sql₁ "" p.2
    match r₁.2.2 with
    | some e => .returned { sqlStr := "", args := r₁.2.1, err := some e }
    | none =>
    let sql₂ := r₁.1 ++ " ON "
    let r₂ := appendToSql [o.toSqlizer] sql₂ "" r₁.2.1
    match r₂.2.2 with
    | some e => .returned { sqlStr := "", args := r₂.2.1, err := some e }
    | none =>
    let r₃ : String × List Value × Option Error :=
      match d.WhenMatched with
      | some m => appendToSql [m] (r₂.1 ++ " WHEN MATCHED THEN ") "" r₂.2.1
      | none => (r₂.1, r₂.2.1, none)
    match r₃.2.2 with
    | some e => .returned { sqlStr := "", args := r₃.2.1, err := some e }
    | none =>
    let r₄ : String × List Value × Option Error :=
      match d.WhenNotMatched with
      | some n => appendToSql [n] (r₃.1 ++ " WHEN NOT MATCHED THEN ") "" r₃.2.1
      | none => (r₃.1, r₃.2.1, none)
    match r₄.2.2 with
    | some e => .returned { sqlStr := "", args := r₄.2.1, err := some e }
    | none =>
    let sql₅ := if d.Output.length > 0 then
        r₄.1 ++ " OUTPUT " ++ String.intercalate "," d.Output
      else r₄.1
    let sql₆ := if d.OutputInto ≠ "" then sql₅ ++ " INTO " ++ d.OutputInto ++ "" else sql₅
    let s := if d.Suffixes.length > 0 then
        exprs.AppendToSql d.Suffixes (sql₆ ++ " ") " " r₄.2.1
      else (sql₆, r₄.2.1)
    let sql₇ := s.1 ++ ";"
    match d.PlaceholderFormat with
    | none => .nilDeref
    | some f =>
      .returned { sqlStr := (f.ReplacePlaceholders sql₇).1, args := s.2,
                  err := (f.ReplacePlaceholders sql₇).2 }

/-! ## Builder (`merge.go`, lines 126-194)

`MergeBuilder` is a `builder.Builder`: an immutable map from field names to values
that `builder.GetStruct` reads back as a `mergeData`.  It is embedded as the
`mergeData` it stands for; `builder.Set(b, name, v)` is the copy of `b` with field
`name` replaced by `v`, and `builder.Append(b, name, vs...)` the copy with `vs`
appended to the list field `name`. -/

/-- The builder handle. -/
structure MergeBuilder where
  data : mergeData

/-- `MergeBuilder.PlaceholderFormat`. -/
def MergeBuilder.PlaceholderFormat (b : MergeBuilder) (f : Squirrel.PlaceholderFormat) :
    MergeBuilder :=
  { data := { b.data with PlaceholderFormat := some f } }

/-- `MergeBuilder.ToSql`. -/
def MergeBuilder.ToSql (b : MergeBuilder) : Outcome SqlResult :=
  b.data.ToSql

/-- `MergeBuilder.Prefix`. -/
def MergeBuilder.Prefix (b : MergeBuilder) (sql : String) (args : List Value) : MergeBuilder :=
  { data := { b.data with Prefixes := b.data.Prefixes ++ [Expr sql args] } }

/-- `MergeBuilder.Table`. -/
def MergeBuilder.Table (b : MergeBuilder) (table : String) : MergeBuilder :=
  { data := { b.data with Table := table } }

/-- `MergeBuilder.Suffix`. -/
def MergeBuilder.Suffix (b : MergeBuilder) (sql : String) (args : List Value) : MergeBuilder :=
  { data := { b.data with Suffixes := b.data.Suffixes ++ [Expr sql args] } }

/-- `MergeBuilder.Output`.  The variadic arguments are appended to the `[]string`
field `Output`, so they are column names. -/
def MergeBuilder.Output (b : MergeBuilder) (args : List String) : MergeBuilder :=
  { data := { b.data with Output := b.data.Output ++ args } }

/-- `MergeBuilder.OutputInto`. -/
def MergeBuilder.OutputInto (b : MergeBuilder) (into : String) (args : List String) :
    MergeBuilder :=
  MergeBuilder.Output { data := { b.data with OutputInto := into } } args

/-- `MergeBuilder.Using`, for a non-nil expression. -/
def MergeBuilder.Using (b : MergeBuilder) (e : Sqlizer) : MergeBuilder :=
  { data := { b.data with Using := some e } }

/-- `MergeBuilder.On`: the predicate and its arguments are wrapped by
`newWherePart`, whose result is never nil. -/
def MergeBuilder.On (b : MergeBuilder) (pred : Pred) (args : List Value) : MergeBuilder :=
  { data := { b.data with On := some (newWherePart pred args) } }

/-- `MergeBuilder.WhenMatched`, for a non-nil expression. -/
def MergeBuilder.WhenMatched (b : MergeBuilder) (e : Sqlizer) : MergeBuilder :=
  { data := { b.data with WhenMatched := some e } }

/-- `MergeBuilder.WhenNotMatched`, for a non-nil expression. -/
def MergeBuilder.WhenNotMatched (b : MergeBuilder) (e : Sqlizer) : MergeBuilder :=
  { data := { b.data with WhenNotMatched := some e } }

/-- Modelled from the spec: the factory `Merge(table)` (defined outside `merge.go`),
"a fresh builder pre-seeded with the given table name".  The fresh builder carries
the `Question` format: the repository test renders `Merge(...)` with no format call
and expects its `?` markers unchanged. -/
def Merge (table : String) : MergeBuilder :=
  MergeBuilder.Table (MergeBuilder.PlaceholderFormat { data := mergeData.zero } Question) table

/-! ## The rendering order of the specification

The definitions of this section follow the words of the specification (section
4.3, steps 1 to 10).  They are compared below with `mergeData.ToSql`, which is
translated from the source. -/

/-- A clause made of a keyword and a rendered sub-expression, or nothing when the
field is unset. -/
def clauseText (kw : String) : Option Sqlizer → String
  | none => ""
  | some z => kw ++ z.ToSql.sqlStr

/-- The arguments a clause contributes, none when the field is unset. -/
def clauseArgs : Option Sqlizer → List Value
  | none => []
  | some z => z.ToSql.args

/-- A field renders without error (an unset field has nothing to render). -/
def rendersOk : Option Sqlizer → Prop
  | none => True
  | some z => z.ToSql.err = none

/-- Step 1: the prefixes joined by one space, followed by a single space. -/
def prefixText (d : mergeData) : String :=
  if d.Prefixes = [] then "" else String.intercalate " " (d.Prefixes.map expr.sql) ++ " "

/-- Step 7: the output keyword and the comma-joined column names. -/
def outputText (d : mergeData) : String :=
  if d.Output = [] then "" else " OUTPUT " ++ String.intercalate "," d.Output

/-- Step 8: the into keyword and the target. -/
def intoText (d : mergeData) : String :=
  if d.OutputInto = "" then "" else " INTO " ++ d.OutputInto

/-- Step 9: a single leading space and the suffixes joined by one space. -/
def suffixText (d : mergeData) : String :=
  if d.Suffixes = [] then "" else " " ++ String.intercalate " " (d.Suffixes.map expr.sql)

/-- Steps 1 to 6: everything up to and including the two action clauses. -/
def bodyText (d : mergeData) : String :=
  prefixText d ++ "MERGE INTO " ++ d.Table
    ++ clauseText " USING " d.Using
    ++ clauseText " ON " (d.On.map wherePart.toSqlizer)
    ++ clauseText " WHEN MATCHED THEN " d.WhenMatched
    ++ clauseText " WHEN NOT MATCHED THEN " d.WhenNotMatched

/-- Steps 1 to 10: the whole statement text before placeholder rewriting. -/
def assembledText (d : mergeData) : String :=
  bodyText d ++ outputText d ++ intoText d ++ suffixText d ++ ";"

/-- The running argument list: prefixes, using, on, the two actions, suffixes. -/
def collectedArgs (d : mergeData) : List Value :=
  d.Prefixes.flatMap expr.args
    ++ clauseArgs d.Using
    ++ clauseArgs (d.On.map wherePart.toSqlizer)
    ++ clauseArgs d.WhenMatched
    ++ clauseArgs d.WhenNotMatched
    ++ d.Suffixes.flatMap expr.args

/-- The required fields are set and every sub-expression renders without error. -/
def mergeData.renderable (d : mergeData) : Prop :=
  d.Table ≠ "" ∧ d.Using ≠ none ∧ d.On ≠ none
    ∧ rendersOk d.Using ∧ rendersOk (d.On.map wherePart.toSqlizer)
    ∧ rendersOk d.WhenMatched ∧ rendersOk d.WhenNotMatched

/-! ## Pieces of the statement text

Used to state where the markers of the rendered text lie. -/

/-- Number of `?` markers in a text. -/
def markers (s : String) : Nat := s.data.count '?'

/-- A stretch of the statement text together with the arguments it contributes. -/
abbrev Piece := String × List Value

/-- The text made of the given pieces, in order. -/
def concatTexts : List Piece → String
  | [] => ""
  | p :: ps => p.1 ++ concatTexts ps

/-- The arguments contributed by the given pieces, in order. -/
def concatArgs : List Piece → List Value
  | [] => []
  | p :: ps => p.2 ++ concatArgs ps

/-- The pieces of a clause: its keyword, then the rendered sub-expression. -/
def clausePieces (kw : String) : Option Sqlizer → List Piece
  | none => []
  | some z => [(kw, []), (z.ToSql.sqlStr, z.ToSql.args)]

/-- The pieces of a list of expressions each followed by a separator. -/
def piecesBefore (sep : String) : List expr → List Piece
  | [] => []
  | e :: es => (e.sql, e.args) :: (sep, []) :: piecesBefore sep es

/-- The pieces of a list of expressions each preceded by a separator. -/
def piecesAfter (sep : String) : List expr → List Piece
  | [] => []
  | e :: es => (sep, []) :: (e.sql, e.args) :: piecesAfter sep es

/-- The pieces of the statement in rendering order: every expression is one piece,
carrying its own arguments; keywords, separators, the table, the output columns and
the into target are pieces without arguments. -/
def pieces (d : mergeData) : List Piece :=
  piecesBefore " " d.Prefixes
    ++ [("MERGE INTO ", []), (d.Table, [])]
    ++ clausePieces " USING " d.Using
    ++ clausePieces " ON " (d.On.map wherePart.toSqlizer)
    ++ clausePieces " WHEN MATCHED THEN " d.WhenMatched
    ++ clausePieces " WHEN NOT MATCHED THEN " d.WhenNotMatched
    ++ (if d.Output = [] then [] else [(" OUTPUT ", []), (String.intercalate "," d.Output, [])])
    ++ (if d.OutputInto = "" then [] else [(" INTO ", []), (d.OutputInto, [])])
    ++ piecesAfter " " d.Suffixes
    ++ [(";", [])]

/-- A field whose rendered text has as many markers as it has arguments. -/
def balanced : Option Sqlizer → Prop
  | none => True
  | some z => markers z.ToSql.sqlStr = z.ToSql.args.length

/-! ## Fields of the statement data -/

/-- The fields of `mergeData`. -/
inductive Field where
  | PlaceholderFormat | RunWith | Prefixes | Table | Using | On
  | WhenMatched | WhenNotMatched | Suffixes | Output | OutputInto
  deriving DecidableEq, Repr

/-- Two snapshots hold the same value in the given field. -/
def mergeData.agreeOn (d d' : mergeData) : Field → Prop
  | .PlaceholderFormat => d.PlaceholderFormat = d'.PlaceholderFormat
  | .RunWith => d.RunWith = d'.RunWith
  | .Prefixes => d.Prefixes = d'.Prefixes
  | .Table => d.Table = d'.Table
  | .Using => d.Using = d'.Using
  | .On => d.On = d'.On
  | .WhenMatched => d.WhenMatched = d'.WhenMatched
  | .WhenNotMatched => d.WhenNotMatched = d'.WhenNotMatched
  | .Suffixes => d.Suffixes = d'.Suffixes
  | .Output => d.Output = d'.Output
  | .OutputInto => d.OutputInto = d'.OutputInto

/-! ## Concrete inputs -/

/-- The builder of `TestMergeBuilderToSql` (`merge_test.go`, lines 10-16). -/
def testBuilder : MergeBuilder :=
  MergeBuilder.Suffix
    (MergeBuilder.WhenNotMatched
      (MergeBuilder.WhenMatched
        (MergeBuilder.On
          (MergeBuilder.Using
            (MergeBuilder.Prefix (Merge "test as t") "WITH prefix AS ?" [Value.int 0])
            (Expr "(SELECT ? as ID) as s" [Value.int 1]).toSqlizer)
          (Pred.str "s.ID = t.ID") [])
        (Expr "UPDATE SET c = ?" [Value.int 2]).toSqlizer)
      (Expr "INSERT(d) VALUES(?)" [Value.int 3]).toSqlizer)
    "RETURNING ?" [Value.int 4]

/-- A sub-expression whose `ToSql` fails. -/
def failing : Sqlizer :=
  { ToSql := { sqlStr := "", args := [], err := some (Error.errorf "boom") } }

/-- Statement data with no target table whose other fields all fail to render and
whose format is unset. -/
def noTable : mergeData :=
  { mergeData.zero with
    Using := some failing, On := some (newWherePart (Pred.sqlizer failing) []),
    WhenMatched := some failing, WhenNotMatched := some failing }

/-- Statement data with a target table, no using source, and a failing on predicate. -/
def noUsing : mergeData :=
  { mergeData.zero with
    Table := "t", On := some (newWherePart (Pred.sqlizer failing) []) }

/-- Statement data with a target table, a failing using source, and no on predicate. -/
def noOn : mergeData :=
  { mergeData.zero with Table := "t", Using := some failing }

/-- The statement of the repository test with a when-not-matched action that fails:
the prefix and four clauses are in the buffer when the failure occurs. -/
def brokenAction : mergeData :=
  { testBuilder.data with WhenNotMatched := some failing }

/-- A minimal renderable statement under the question-mark format. -/
def plainMerge : mergeData :=
  { mergeData.zero with
    PlaceholderFormat := some Question, Table := "t",
    Using := some (Expr "src" [Value.int 1]).toSqlizer,
    On := some (newWherePart (Pred.str "src.id = t.id") []) }

/-- The minimal statement with a when-matched action only. -/
def matchedOnly : mergeData :=
  { plainMerge with WhenMatched := some (Expr "UPDATE SET c = ?" [Value.int 2]).toSqlizer }

/-- The minimal statement with a when-not-matched action only. -/
def notMatchedOnly : mergeData :=
  { plainMerge with
    WhenNotMatched := some (Expr "INSERT(d) VALUES(?)" [Value.int 3]).toSqlizer }

/-- The minimal statement with two output columns and an into target. -/
def outputMerge : mergeData :=
  { plainMerge with Output := ["col1", "col2"], OutputInto := "target" }

/-- A runner that can also produce a single row. -/
def pooled : BaseRunner := { name := "db", isQueryRower := true }

/-- A runner without the single-row capability. -/
def execOnly : BaseRunner := { name := "tx", isQueryRower := false }

/-- A delegate for `Exec` and `Query` that reports the runner and the table it got. -/
def echoWith (r : BaseRunner) (d : mergeData) : Option String × Option Error :=
  (some (r.name ++ ":" ++ d.Table), none)

/-- A delegate for `QueryRow` that reports the runner and the table it got. -/
def echoRowWith (r : BaseRunner) (d : mergeData) : Row String :=
  { RowScanner := some (r.name ++ ":" ++ d.Table), err := none }

/-! ## Configuration calls -/

/-- A configuration call of `MergeBuilder`, with its arguments. -/
inductive Call where
  | PlaceholderFormat (f : Squirrel.PlaceholderFormat)
  | Prefix (sql : String) (args : List Value)
  | Table (table : String)
  | Suffix (sql : String) (args : List Value)
  | OutputInto (into : String) (args : List String)
  | Output (args : List String)
  | Using (e : Sqlizer)
  | On (pred : Pred) (args : List Value)
  | WhenMatched (e : Sqlizer)
  | WhenNotMatched (e : Sqlizer)

/-- The builder method a call stands for, applied to a receiver. -/
def Call.apply : Call → MergeBuilder → MergeBuilder
  | .PlaceholderFormat f, b => b.PlaceholderFormat f
  | .Prefix sql args, b => b.Prefix sql args
  | .Table table, b => b.Table table
  | .Suffix sql args, b => b.Suffix sql args
  | .OutputInto into args, b => b.OutputInto into args
  | .Output args, b => b.Output args
  | .Using e, b => b.Using e
  | .On pred args, b => b.On pred args
  | .WhenMatched e, b => b.WhenMatched e
  | .WhenNotMatched e, b => b.WhenNotMatched e

/-- The fields a call sets or appends to (the name it hands to `builder.Set` or
`builder.Append`). -/
def Call.touches : Call → List Field
  | .PlaceholderFormat _ => [Field.PlaceholderFormat]
  | .Prefix _ _ => [Field.Prefixes]
  | .Table _ => [Field.Table]
  | .Suffix _ _ => [Field.Suffixes]
  | .OutputInto _ _ => [Field.OutputInto, Field.Output]
  | .Output _ => [Field.Output]
  | .Using _ => [Field.Using]
  | .On _ _ => [Field.On]
  | .WhenMatched _ => [Field.WhenMatched]
  | .WhenNotMatched _ => [Field.WhenNotMatched]

/-! ## Texts supplied by the caller -/

/-- The statement text after the prefixes: the target, the clauses, the output part. -/
def coreText (d : mergeData) : String :=
  "MERGE INTO " ++ d.Table
    ++ clauseText " USING " d.Using
    ++ clauseText " ON " (d.On.map wherePart.toSqlizer)
    ++ clauseText " WHEN MATCHED THEN " d.WhenMatched
    ++ clauseText " WHEN NOT MATCHED THEN " d.WhenNotMatched
    ++ outputText d ++ intoText d

/-- Number of `;` characters in a text. -/
def semicolons (s : String) : Nat := s.data.count ';'

/-- The rendered text of a field, when it is set. -/
def renderedTexts : Option Sqlizer → List String
  | none => []
  | some z => [z.ToSql.sqlStr]

/-- The texts that come from the caller, in rendering order: the prefixes, the
table, the rendered sub-expressions, the output columns, the into target and the
suffixes. -/
def callerTexts (d : mergeData) : List String :=
  d.Prefixes.map expr.sql ++ [d.Table]
    ++ renderedTexts d.Using
    ++ renderedTexts (d.On.map wherePart.toSqlizer)
    ++ renderedTexts d.WhenMatched
    ++ renderedTexts d.WhenNotMatched
    ++ d.Output ++ [d.OutputInto]
    ++ d.Suffixes.map expr.sql

/-! ## Further concrete inputs -/

/-- A statement with two prefixes and two suffixes. -/
def twoEnds : MergeBuilder :=
  MergeBuilder.Suffix
    (MergeBuilder.Suffix
      (MergeBuilder.Prefix
        (MergeBuilder.Prefix
          (MergeBuilder.On
            (MergeBuilder.Using (Merge "t") (Expr "src" [Value.int 1]).toSqlizer)
            (Pred.str "src.id = t.id") [])
          "WITH a AS ?" [Value.int 7])
        "WITH b AS ?" [Value.int 8])
      "RETURNING ?" [Value.int 9])
    "OPTION ?" [Value.int 10]

/-- The calls of the repository test in another order: suffix first, the actions
swapped, on before using, the prefix last. -/
def shuffledBuilder : MergeBuilder :=
  MergeBuilder.Prefix
    (MergeBuilder.Using
      (MergeBuilder.On
        (MergeBuilder.WhenMatched
          (MergeBuilder.WhenNotMatched
            (MergeBuilder.Suffix (Merge "test as t") "RETURNING ?" [Value.int 4])
            (Expr "INSERT(d) VALUES(?)" [Value.int 3]).toSqlizer)
          (Expr "UPDATE SET c = ?" [Value.int 2]).toSqlizer)
        (Pred.str "s.ID = t.ID") [])
      (Expr "(SELECT ? as ID) as s" [Value.int 1]).toSqlizer)
    "WITH prefix AS ?" [Value.int 0]

/-- A sub-expression whose `ToSql` fails with the given message. -/
def failingWith (msg : String) : Sqlizer :=
  { ToSql := { sqlStr := "", args := [], err := some (Error.errorf msg) } }

/-- A statement whose using source renders and whose on predicate and two actions
all fail, each with its own error. -/
def threeFailures : mergeData :=
  { plainMerge with
    On := some (newWherePart (Pred.sqlizer (failingWith "on")) []),
    WhenMatched := some (failingWith "matched"),
    WhenNotMatched := some (failingWith "not matched") }

/-- The minimal statement after `OutputInto` with a target and no columns. -/
def intoOnly : MergeBuilder :=
  MergeBuilder.OutputInto { data := plainMerge } "target" []

/-- The minimal statement with one output column and no into target. -/
def outputOnly : mergeData :=
  { plainMerge with Output := ["col1"] }

/-! ## Auxiliary lemmas -/

theorem string_length_eq_zero (s : String) : s.length = 0 ↔ s = "" := by
  constructor
  · intro h
    have hd : s.data = [] := List.length_eq_zero.mp h
    exact String.ext hd
  · intro h
    subst h
    rfl

theorem intercalate_go_append (w acc sep : String) (xs : List String) :
    String.intercalate.go (w ++ acc) sep xs = w ++ String.intercalate.go acc sep xs := by
  induction xs generalizing acc with
  | nil => rfl
  | cons x xs ih =>
    simp only [String.intercalate.go]
    rw [String.append_assoc w acc sep, String.append_assoc w (acc ++ sep) x, ih]

theorem AppendToSqlFrom_succ (sep : String) (i : Nat) (es : List expr) (w : String)
    (args : List Value) :
    exprs.AppendToSqlFrom sep (i + 1) es w args
      = (String.intercalate.go w sep (es.map expr.sql), args ++ es.flatMap expr.args) := by
  induction es generalizing i w args with
  | nil => simp [exprs.AppendToSqlFrom, String.intercalate.go]
  | cons e es ih =>
    simp [exprs.AppendToSqlFrom, String.intercalate.go, ih]

theorem AppendToSql_eq (es : exprs) (w sep : String) (args : List Value) (h : es ≠ []) :
    exprs.AppendToSql es w sep args
      = (w ++ String.intercalate sep (es.map expr.sql), args ++ es.flatMap expr.args) := by
  cases es with
  | nil => exact absurd rfl h
  | cons e es =>
    simp [exprs.AppendToSql, exprs.AppendToSqlFrom, AppendToSqlFrom_succ, String.intercalate,
      intercalate_go_append]

theorem appendToSql_single_ok (p : Sqlizer) (w : String) (args : List Value)
    (h : p.ToSql.err = none) :
    appendToSql [p] w "" args = (w ++ p.ToSql.sqlStr, args ++ p.ToSql.args, none) := by
  simp [appendToSql, appendToSqlFrom, h]

theorem appendToSql_single_err (p : Sqlizer) (w : String) (args : List Value) (e : Error)
    (h : p.ToSql.err = some e) :
    appendToSql [p] w "" args = (w, [], some e) := by
  simp [appendToSql, appendToSqlFrom, h]

/-- On a renderable statement with a format set, the source renderer walks the
rendering order of the specification and rewrites the whole text once. -/
theorem ToSql_eq_assembled (d : mergeData) (f : PlaceholderFormat)
    (hr : d.renderable) (hf : d.PlaceholderFormat = some f) :
    d.ToSql = .returned
      { sqlStr := (f.ReplacePlaceholders (assembledText d)).1,
        args := collectedArgs d,
        err := (f.ReplacePlaceholders (assembledText d)).2 } := by
  obtain ⟨ht, hu, ho, ru, ro, rm, rn⟩ := hr
  obtain ⟨pf, rw_, pre, t, u, o, m, n, suf, out, into⟩ := d
  simp only at ht hu ho hf ru ro rm rn
  subst hf
  cases u with
  | none => exact absurd rfl hu
  | some u =>
  cases o with
  | none => exact absurd rfl ho
  | some o =>
  have ht0 : ¬ t.length = 0 := fun h => ht ((string_length_eq_zero t).mp h)
  simp only [rendersOk, Option.map] at ru ro
  have ro0 : o.toSqlizer.ToSql.err = none := ro
  cases m <;> cases n <;> simp only [rendersOk] at rm rn <;>
  by_cases hp : pre = [] <;> by_cases hs : suf = [] <;> by_cases hc : out = [] <;>
  by_cases hi : into = "" <;>
  simp [mergeData.ToSql, ht0, appendToSql_single_ok, AppendToSql_eq, ru, ro0, rm, rn, hp, hs,
    hc, hi, assembledText, bodyText, prefixText, outputText, intoText, suffixText, clauseText,
    clauseArgs, collectedArgs, String.append_assoc, List.length_pos]

theorem ToSql_table_empty (d : mergeData) (ht : d.Table = "") :
    d.ToSql = .returned
      { sqlStr := "", args := [],
        err := some (Error.errorf "merge statements must specify a target table") } := by
  simp [mergeData.ToSql, ht]

theorem ToSql_using_unset (d : mergeData) (ht : d.Table ≠ "") (hu : d.Using = none) :
    d.ToSql = .returned
      { sqlStr := "", args := [],
        err := some (Error.errorf "merge statements must specify a using statement") } := by
  have ht0 : ¬ d.Table.length = 0 := fun h => ht ((string_length_eq_zero _).mp h)
  simp [mergeData.ToSql, ht0, hu]

theorem ToSql_on_unset (d : mergeData) (ht : d.Table ≠ "") (hu : d.Using ≠ none)
    (ho : d.On = none) :
    d.ToSql = .returned
      { sqlStr := "", args := [],
        err := some (Error.errorf "merge statements must specify an on statement") } := by
  have ht0 : ¬ d.Table.length = 0 := fun h => ht ((string_length_eq_zero _).mp h)
  cases hu0 : d.Using with
  | none => exact absurd hu0 hu
  | some u => simp [mergeData.ToSql, ht0, hu0, ho]

theorem ToSql_using_fails (d : mergeData) (u : Sqlizer) (o : wherePart) (e : Error)
    (ht : d.Table ≠ "") (hu : d.Using = some u) (ho : d.On = some o)
    (eu : u.ToSql.err = some e) :
    d.ToSql = .returned { sqlStr := "", args := [], err := some e } := by
  have ht0 : ¬ d.Table.length = 0 := fun h => ht ((string_length_eq_zero _).mp h)
  simp [mergeData.ToSql, ht0, hu, ho, appendToSql_single_err _ _ _ _ eu]

theorem ToSql_on_fails (d : mergeData) (u : Sqlizer) (o : wherePart) (e : Error)
    (ht : d.Table ≠ "") (hu : d.Using = some u) (ho : d.On = some o)
    (eu : u.ToSql.err = none) (eo : o.ToSql.err = some e) :
    d.ToSql = .returned { sqlStr := "", args := [], err := some e } := by
  have ht0 : ¬ d.Table.length = 0 := fun h => ht ((string_length_eq_zero _).mp h)
  have eo0 : o.toSqlizer.ToSql.err = some e := eo
  simp [mergeData.ToSql, ht0, hu, ho, appendToSql_single_ok _ _ _ eu,
    appendToSql_single_err _ _ _ _ eo0]

theorem ToSql_whenMatched_fails (d : mergeData) (u : Sqlizer) (o : wherePart) (m : Sqlizer)
    (e : Error) (ht : d.Table ≠ "") (hu : d.Using = some u) (ho : d.On = some o)
    (hm : d.WhenMatched = some m)
    (eu : u.ToSql.err = none) (eo : o.ToSql.err = none) (em : m.ToSql.err = some e) :
    d.ToSql = .returned { sqlStr := "", args := [], err := some e } := by
  have ht0 : ¬ d.Table.length = 0 := fun h => ht ((string_length_eq_zero _).mp h)
  have eo0 : o.toSqlizer.ToSql.err = none := eo
  simp [mergeData.ToSql, ht0, hu, ho, hm, appendToSql_single_ok _ _ _ eu,
    appendToSql_single_ok _ _ _ eo0, appendToSql_single_err _ _ _ _ em]

theorem ToSql_whenNotMatched_fails (d : mergeData) (u : Sqlizer) (o : wherePart) (n : Sqlizer)
    (e : Error) (ht : d.Table ≠ "") (hu : d.Using = some u) (ho : d.On = some o)
    (hn : d.WhenNotMatched = some n)
    (eu : u.ToSql.err = none) (eo : o.ToSql.err = none) (em : rendersOk d.WhenMatched)
    (en : n.ToSql.err = some e) :
    d.ToSql = .returned { sqlStr := "", args := [], err := some e } := by
  have ht0 : ¬ d.Table.length = 0 := fun h => ht ((string_length_eq_zero _).mp h)
  have eo0 : o.toSqlizer.ToSql.err = none := eo
  cases hm : d.WhenMatched with
  | none =>
    simp [mergeData.ToSql, ht0, hu, ho, hm, hn, appendToSql_single_ok _ _ _ eu,
      appendToSql_single_ok _ _ _ eo0, appendToSql_single_err _ _ _ _ en]
  | some m =>
    have em0 : m.ToSql.err = none := by simpa [rendersOk, hm] using em
    simp [mergeData.ToSql, ht0, hu, ho, hm, hn, appendToSql_single_ok _ _ _ eu,
      appendToSql_single_ok _ _ _ eo0, appendToSql_single_ok _ _ _ em0,
      appendToSql_single_err _ _ _ _ en]

theorem rendersOk_or_fails (z : Option Sqlizer) :
    rendersOk z ∨ ∃ s e, z = some s ∧ s.ToSql.err = some e := by
  cases z with
  | none => exact Or.inl trivial
  | some s =>
    cases h : s.ToSql.err with
    | none => exact Or.inl h
    | some e => exact Or.inr ⟨s, e, rfl, h⟩

/-- Whenever a required field is missing or a sub-expression fails, `ToSql` returns an
error together with the empty SQL string. -/
theorem ToSql_failure (d : mergeData)
    (h : ¬ d.renderable) :
    ∃ e, d.ToSql = .returned { sqlStr := "", args := [], err := some e } := by
  by_cases ht : d.Table = ""
  · exact ⟨_, ToSql_table_empty d ht⟩
  cases hu : d.Using with
  | none => exact ⟨_, ToSql_using_unset d ht hu⟩
  | some u =>
  cases ho : d.On with
  | none => exact ⟨_, ToSql_on_unset d ht (by simp [hu]) ho⟩
  | some o =>
  cases eu : u.ToSql.err with
  | some e => exact ⟨_, ToSql_using_fails d u o e ht hu ho eu⟩
  | none =>
  cases eo : o.ToSql.err with
  | some e => exact ⟨_, ToSql_on_fails d u o e ht hu ho eu eo⟩
  | none =>
  rcases rendersOk_or_fails d.WhenMatched with rm | ⟨m, e, hm, em⟩
  · rcases rendersOk_or_fails d.WhenNotMatched with rn | ⟨n, e, hn, en⟩
    · exact absurd (show d.renderable from
        ⟨ht, by simp [hu], by simp [ho], by simpa [rendersOk, hu] using eu,
          by simpa [rendersOk, ho, wherePart.toSqlizer] using eo, rm, rn⟩) h
    · exact ⟨_, ToSql_whenNotMatched_fails d u o n e ht hu ho hn eu eo rm en⟩
  · exact ⟨_, ToSql_whenMatched_fails d u o m e ht hu ho hm eu eo em⟩

theorem renderable_of_fields (d : mergeData) (u : Sqlizer) (o : wherePart)
    (ht : d.Table ≠ "") (hu : d.Using = some u) (ho : d.On = some o)
    (eu : u.ToSql.err = none) (eo : o.ToSql.err = none)
    (rm : rendersOk d.WhenMatched) (rn : rendersOk d.WhenNotMatched) : d.renderable :=
  ⟨ht, by simp [hu], by simp [ho], by simpa [rendersOk, hu] using eu,
    by simpa [rendersOk, ho, wherePart.toSqlizer] using eo, rm, rn⟩

theorem ToSql_nilDeref (d : mergeData) (hr : d.renderable) (hf : d.PlaceholderFormat = none) :
    d.ToSql = .nilDeref := by
  obtain ⟨ht, hu, ho, ru, ro, rm, rn⟩ := hr
  obtain ⟨pf, rw_, pre, t, u, o, m, n, suf, out, into⟩ := d
  simp only at ht hu ho hf ru ro rm rn
  subst hf
  cases u with
  | none => exact absurd rfl hu
  | some u =>
  cases o with
  | none => exact absurd rfl ho
  | some o =>
  have ht0 : ¬ t.length = 0 := fun h => ht ((string_length_eq_zero t).mp h)
  simp only [rendersOk, Option.map] at ru ro
  have ro0 : o.toSqlizer.ToSql.err = none := ro
  cases m <;> cases n <;> simp only [rendersOk] at rm rn <;>
  simp [mergeData.ToSql, ht0, appendToSql_single_ok, ru, ro0, rm, rn]

theorem ToSql_success_inv (d : mergeData) (r : SqlResult) (h : d.ToSql = .returned r)
    (hok : r.err = none) : d.renderable ∧ ∃ f, d.PlaceholderFormat = some f := by
  have hr : d.renderable := by
    by_contra hn
    obtain ⟨e, he⟩ := ToSql_failure d hn
    rw [he] at h
    injection h with h
    subst h
    simp at hok
  refine ⟨hr, ?_⟩
  cases hf : d.PlaceholderFormat with
  | none =>
    rw [ToSql_nilDeref d hr hf] at h
    cases h
  | some f => exact ⟨f, rfl⟩

set_option maxRecDepth 20000 in
theorem testBuilder_Dollar :
    (MergeBuilder.PlaceholderFormat testBuilder Dollar).ToSql
      = .returned
          { sqlStr := "WITH prefix AS $1 MERGE INTO test as t USING (SELECT $2 as ID) as s ON s.ID = t.ID WHEN MATCHED THEN UPDATE SET c = $3 WHEN NOT MATCHED THEN INSERT(d) VALUES($4) RETURNING $5;",
            args := [Value.int 0, Value.int 1, Value.int 2, Value.int 3, Value.int 4],
            err := none } := by
  rfl

/-! ## Lemmas on pieces and markers -/

theorem markers_append (a b : String) : markers (a ++ b) = markers a + markers b := by
  simp [markers, String.data_append, List.count_append]

theorem concatTexts_append (a b : List Piece) :
    concatTexts (a ++ b) = concatTexts a ++ concatTexts b := by
  induction a with
  | nil => simp [concatTexts]
  | cons p ps ih => simp [concatTexts, ih, String.append_assoc]

theorem concatArgs_append (a b : List Piece) :
    concatArgs (a ++ b) = concatArgs a ++ concatArgs b := by
  induction a with
  | nil => simp [concatArgs]
  | cons p ps ih => simp [concatArgs, ih]

theorem intercalate_go_pieces (acc sep : String) (es : List expr) :
    String.intercalate.go acc sep (es.map expr.sql)
      = acc ++ concatTexts (piecesAfter sep es) := by
  induction es generalizing acc with
  | nil => simp [String.intercalate.go, concatTexts, piecesAfter]
  | cons e es ih =>
    simp [String.intercalate.go, ih, concatTexts, piecesAfter, String.append_assoc]

theorem pieces_shift (sep : String) (es : List expr) :
    concatTexts (piecesAfter sep es) ++ sep = sep ++ concatTexts (piecesBefore sep es) := by
  induction es with
  | nil => simp [concatTexts, piecesAfter, piecesBefore]
  | cons e es ih =>
    simp only [piecesAfter, piecesBefore, concatTexts, String.append_assoc, ih]

theorem prefixText_pieces (d : mergeData) :
    prefixText d = concatTexts (piecesBefore " " d.Prefixes) := by
  unfold prefixText
  cases h : d.Prefixes with
  | nil => simp [concatTexts, piecesBefore]
  | cons e es =>
    simp [String.intercalate, intercalate_go_pieces, piecesBefore, concatTexts,
      String.append_assoc, pieces_shift]

theorem suffixText_pieces (d : mergeData) :
    suffixText d = concatTexts (piecesAfter " " d.Suffixes) := by
  unfold suffixText
  cases h : d.Suffixes with
  | nil => simp [concatTexts, piecesAfter]
  | cons e es =>
    simp [String.intercalate, intercalate_go_pieces, piecesAfter, concatTexts,
      String.append_assoc]

theorem clauseText_pieces (kw : String) (z : Option Sqlizer) :
    clauseText kw z = concatTexts (clausePieces kw z) := by
  cases z <;> simp [clauseText, clausePieces, concatTexts]

theorem clauseArgs_pieces (kw : String) (z : Option Sqlizer) :
    clauseArgs z = concatArgs (clausePieces kw z) := by
  cases z <;> simp [clauseArgs, clausePieces, concatArgs]

theorem flatMap_args_before (sep : String) (es : List expr) :
    es.flatMap expr.args = concatArgs (piecesBefore sep es) := by
  induction es with
  | nil => simp [concatArgs, piecesBefore]
  | cons e es ih =>
    rw [List.flatMap_cons, ih]
    simp [concatArgs, piecesBefore]

theorem flatMap_args_after (sep : String) (es : List expr) :
    es.flatMap expr.args = concatArgs (piecesAfter sep es) := by
  induction es with
  | nil => simp [concatArgs, piecesAfter]
  | cons e es ih =>
    rw [List.flatMap_cons, ih]
    simp [concatArgs, piecesAfter]

theorem assembledText_pieces (d : mergeData) : assembledText d = concatTexts (pieces d) := by
  unfold assembledText bodyText pieces outputText intoText
  rw [prefixText_pieces, suffixText_pieces]
  simp only [concatTexts_append, clauseText_pieces]
  by_cases hc : d.Output = [] <;> by_cases hi : d.OutputInto = "" <;>
    simp [hc, hi, concatTexts, String.append_assoc]

theorem collectedArgs_pieces (d : mergeData) : collectedArgs d = concatArgs (pieces d) := by
  unfold collectedArgs pieces
  rw [flatMap_args_before " " d.Prefixes, flatMap_args_after " " d.Suffixes]
  simp only [concatArgs_append, ← clauseArgs_pieces]
  by_cases hc : d.Output = [] <;> by_cases hi : d.OutputInto = "" <;>
    simp [hc, hi, concatArgs]


theorem aligned (ps : List Piece) (hb : ∀ pc ∈ ps, markers pc.1 = pc.2.length) (k : Nat)
    (hk : k < (concatArgs ps).length) :
    ∃ pre pc post, ps = pre ++ pc :: post
      ∧ markers (concatTexts pre) ≤ k ∧ k < markers (concatTexts pre) + markers pc.1
      ∧ (concatArgs pre).length = markers (concatTexts pre)
      ∧ (concatArgs ps)[k]? = pc.2[k - (concatArgs pre).length]? := by
  induction ps generalizing k with
  | nil => simp [concatArgs] at hk
  | cons p ps ih =>
    have hp : markers p.1 = p.2.length := hb p (List.mem_cons_self _ _)
    by_cases hlt : k < p.2.length
    · refine ⟨[], p, ps, rfl, ?_, ?_, ?_, ?_⟩
      · simp [concatTexts, markers]
      · have h0 : markers (concatTexts []) = 0 := rfl
        rw [h0, hp]
        omega
      · simp [concatTexts, concatArgs, markers]
      · simp [concatArgs, List.getElem?_append_left hlt]
    · have hge : p.2.length ≤ k := Nat.le_of_not_lt hlt
      have hk2 : k - p.2.length < (concatArgs ps).length := by
        simp only [concatArgs, List.length_append] at hk
        omega
      obtain ⟨pre, pc, post, hsplit, h1, h2, h3, h4⟩ :=
        ih (fun q hq => hb q (List.mem_cons_of_mem _ hq)) (k - p.2.length) hk2
      refine ⟨p :: pre, pc, post, by simp [hsplit], ?_, ?_, ?_, ?_⟩
      · simp only [concatTexts, markers_append, hp]
        omega
      · simp only [concatTexts, markers_append, hp]
        omega
      · simp only [concatTexts, concatArgs, markers_append, hp, List.length_append, h3]
      · simp only [concatArgs, List.length_append]
        rw [List.getElem?_append_right hge, h4]
        congr 1
        omega

theorem markers_concatTexts (ps : List Piece) (hb : ∀ pc ∈ ps, markers pc.1 = pc.2.length) :
    markers (concatTexts ps) = (concatArgs ps).length := by
  induction ps with
  | nil => simp [concatTexts, concatArgs, markers]
  | cons p ps ih =>
    simp only [concatTexts, concatArgs, markers_append, List.length_append]
    rw [hb p (List.mem_cons_self _ _), ih (fun q hq => hb q (List.mem_cons_of_mem _ hq))]

theorem markers_go_zero (acc sep : String) (xs : List String) (ha : markers acc = 0)
    (hs : markers sep = 0) (hx : ∀ x ∈ xs, markers x = 0) :
    markers (String.intercalate.go acc sep xs) = 0 := by
  induction xs generalizing acc with
  | nil => simpa [String.intercalate.go] using ha
  | cons x xs ih =>
    simp only [String.intercalate.go]
    apply ih
    · simp [markers_append, ha, hs, hx x (List.mem_cons_self _ _)]
    · intro y hy
      exact hx y (List.mem_cons_of_mem _ hy)

theorem markers_intercalate_zero (sep : String) (xs : List String)
    (hs : markers sep = 0) (hx : ∀ x ∈ xs, markers x = 0) :
    markers (String.intercalate sep xs) = 0 := by
  cases xs with
  | nil => rfl
  | cons x xs =>
    exact markers_go_zero x sep xs (hx x (List.mem_cons_self _ _)) hs
      (fun y hy => hx y (List.mem_cons_of_mem _ hy))

theorem piecesBefore_balanced (es : List expr)
    (h : ∀ e ∈ es, markers e.sql = e.args.length) :
    ∀ pc ∈ piecesBefore " " es, markers pc.1 = pc.2.length := by
  induction es with
  | nil => simp [piecesBefore]
  | cons e es ih =>
    intro pc hpc
    simp only [piecesBefore, List.mem_cons] at hpc
    rcases hpc with rfl | rfl | hpc
    · exact h e (List.mem_cons_self _ _)
    · rfl
    · exact ih (fun q hq => h q (List.mem_cons_of_mem _ hq)) pc hpc

theorem piecesAfter_balanced (es : List expr)
    (h : ∀ e ∈ es, markers e.sql = e.args.length) :
    ∀ pc ∈ piecesAfter " " es, markers pc.1 = pc.2.length := by
  induction es with
  | nil => simp [piecesAfter]
  | cons e es ih =>
    intro pc hpc
    simp only [piecesAfter, List.mem_cons] at hpc
    rcases hpc with rfl | rfl | hpc
    · rfl
    · exact h e (List.mem_cons_self _ _)
    · exact ih (fun q hq => h q (List.mem_cons_of_mem _ hq)) pc hpc

theorem clausePieces_balanced (kw : String) (z : Option Sqlizer) (hk : markers kw = 0)
    (h : balanced z) : ∀ pc ∈ clausePieces kw z, markers pc.1 = pc.2.length := by
  cases z with
  | none => simp [clausePieces]
  | some z =>
    intro pc hpc
    simp only [clausePieces, List.mem_cons, List.mem_singleton, List.not_mem_nil,
      or_false] at hpc
    rcases hpc with rfl | rfl
    · simpa using hk
    · exact h

theorem pieces_balanced (d : mergeData)
    (hp : ∀ e ∈ d.Prefixes, markers e.sql = e.args.length)
    (hs : ∀ e ∈ d.Suffixes, markers e.sql = e.args.length)
    (hu : balanced d.Using) (ho : balanced (d.On.map wherePart.toSqlizer))
    (hm : balanced d.WhenMatched) (hn : balanced d.WhenNotMatched)
    (ht : markers d.Table = 0) (hc : ∀ c ∈ d.Output, markers c = 0)
    (hi : markers d.OutputInto = 0) :
    ∀ pc ∈ pieces d, markers pc.1 = pc.2.length := by
  intro pc hpc
  simp only [pieces, List.mem_append] at hpc
  rcases hpc with (((((((((h | h) | h) | h) | h) | h) | h) | h) | h) | h)
  · exact piecesBefore_balanced _ hp pc h
  · simp only [List.mem_cons, List.mem_singleton, List.not_mem_nil, or_false] at h
    rcases h with rfl | rfl
    · rfl
    · simpa using ht
  · exact clausePieces_balanced " USING " _ rfl hu pc h
  · exact clausePieces_balanced " ON " _ rfl ho pc h
  · exact clausePieces_balanced " WHEN MATCHED THEN " _ rfl hm pc h
  · exact clausePieces_balanced " WHEN NOT MATCHED THEN " _ rfl hn pc h
  · by_cases hout : d.Output = []
    · simp [hout] at h
    · simp only [hout, if_false, List.mem_cons, List.mem_singleton, List.not_mem_nil,
        or_false] at h
      rcases h with rfl | rfl
      · rfl
      · simpa using markers_intercalate_zero "," d.Output rfl hc
  · by_cases hin : d.OutputInto = ""
    · simp [hin] at h
    · simp only [hin, if_false, List.mem_cons, List.mem_singleton, List.not_mem_nil,
        or_false] at h
      rcases h with rfl | rfl
      · rfl
      · simpa using hi
  · exact piecesAfter_balanced _ hs pc h
  · simp only [List.mem_singleton] at h
    subst h
    rfl

/-! ## Lemmas for the later claims -/

theorem ToSql_congr_On (d : mergeData) (o o' : wherePart) (h : o.ToSql = o'.ToSql) :
    mergeData.ToSql { d with On := some o } = mergeData.ToSql { d with On := some o' } := by
  have hz : o.toSqlizer = o'.toSqlizer := by simp [wherePart.toSqlizer, h]
  simp only [mergeData.ToSql, hz]

theorem assembledText_core (d : mergeData) :
    assembledText d = prefixText d ++ coreText d ++ suffixText d ++ ";" := by
  simp [assembledText, bodyText, coreText, String.append_assoc]

theorem semicolons_append (a b : String) :
    semicolons (a ++ b) = semicolons a + semicolons b := by
  simp [semicolons, String.data_append, List.count_append]

theorem semicolons_go (acc sep : String) (xs : List String) (hs : semicolons sep = 0) :
    semicolons (String.intercalate.go acc sep xs)
      = semicolons acc + (xs.map semicolons).sum := by
  induction xs generalizing acc with
  | nil => simp [String.intercalate.go]
  | cons x xs ih =>
    simp only [String.intercalate.go, ih, semicolons_append, hs, List.map_cons, List.sum_cons]
    omega

theorem semicolons_intercalate (sep : String) (xs : List String) (hs : semicolons sep = 0) :
    semicolons (String.intercalate sep xs) = (xs.map semicolons).sum := by
  cases xs with
  | nil => rfl
  | cons x xs => simp [String.intercalate, semicolons_go _ _ _ hs]

theorem semicolons_clauseText (kw : String) (z : Option Sqlizer) (hk : semicolons kw = 0) :
    semicolons (clauseText kw z) = ((renderedTexts z).map semicolons).sum := by
  cases z with
  | none => rfl
  | some z => simp [clauseText, renderedTexts, semicolons_append, hk]

theorem semicolons_assembledText (d : mergeData) :
    semicolons (assembledText d) = ((callerTexts d).map semicolons).sum + 1 := by
  have e0 : semicolons "" = 0 := rfl
  have e1 : semicolons " " = 0 := rfl
  have e2 : semicolons "," = 0 := rfl
  have e3 : semicolons "MERGE INTO " = 0 := rfl
  have e4 : semicolons " OUTPUT " = 0 := rfl
  have e5 : semicolons " INTO " = 0 := rfl
  have e6 : semicolons ";" = 1 := rfl
  have hp : semicolons (prefixText d) = ((d.Prefixes.map expr.sql).map semicolons).sum := by
    unfold prefixText
    by_cases h : d.Prefixes = []
    · simp [h, e0]
    · simp only [h, if_false, semicolons_append, semicolons_intercalate _ _ e1, e1]
      omega
  have hs : semicolons (suffixText d) = ((d.Suffixes.map expr.sql).map semicolons).sum := by
    unfold suffixText
    by_cases h : d.Suffixes = []
    · simp [h, e0]
    · simp only [h, if_false, semicolons_append, semicolons_intercalate _ _ e1, e1]
      omega
  have hc : semicolons (outputText d) = (d.Output.map semicolons).sum := by
    unfold outputText
    by_cases h : d.Output = []
    · simp [h, e0]
    · simp only [h, if_false, semicolons_append, semicolons_intercalate _ _ e2, e4]
      omega
  have hi : semicolons (intoText d) = semicolons d.OutputInto := by
    unfold intoText
    by_cases h : d.OutputInto = ""
    · simp [h, e0]
    · simp only [h, if_false, semicolons_append, e5]
      omega
  simp only [assembledText, bodyText, callerTexts, semicolons_append, hp, hs, hc, hi, e3, e6,
    semicolons_clauseText _ _ (show semicolons " USING " = 0 from rfl),
    semicolons_clauseText _ _ (show semicolons " ON " = 0 from rfl),
    semicolons_clauseText _ _ (show semicolons " WHEN MATCHED THEN " = 0 from rfl),
    semicolons_clauseText _ _ (show semicolons " WHEN NOT MATCHED THEN " = 0 from rfl),
    List.map_append, List.sum_append, List.map_cons, List.map_nil, List.sum_cons, List.sum_nil]
  omega

theorem Call.apply_comm (b : MergeBuilder) (c₁ c₂ : Call)
    (h : ∀ fld ∈ c₁.touches, fld ∉ c₂.touches) :
    c₁.apply (c₂.apply b) = c₂.apply (c₁.apply b) := by
  cases c₁ <;> cases c₂ <;>
    first
    | rfl
    | (exfalso; simp [Call.touches] at h)

theorem ToSql_returns (d : mergeData) (f : PlaceholderFormat)
    (hf : d.PlaceholderFormat = some f) : ∃ r, d.ToSql = .returned r := by
  by_cases hr : d.renderable
  · exact ⟨_, ToSql_eq_assembled d f hr hf⟩
  · obtain ⟨e, he⟩ := ToSql_failure d hr
    exact ⟨_, he⟩

theorem ToSql_succeeds_iff (d : mergeData) (f : PlaceholderFormat)
    (hf : d.PlaceholderFormat = some f) :
    (∃ r, d.ToSql = .returned r ∧ r.err = none)
      ↔ (d.renderable ∧ (f.ReplacePlaceholders (assembledText d)).2 = none) := by
  constructor
  · rintro ⟨r, h, hok⟩
    obtain ⟨hr, _⟩ := ToSql_success_inv d r h hok
    refine ⟨hr, ?_⟩
    rw [ToSql_eq_assembled d f hr hf] at h
    injection h with h
    subst h
    exact hok
  · rintro ⟨hr, hrw⟩
    exact ⟨_, ToSql_eq_assembled d f hr hf, hrw⟩

/-! ## Claims -/

/-- C1: for every table name, prefix, using, on, when-matched, when-not-matched and
suffix expression, all with non-empty text, the builder chain of the repository
test renders under the question-mark format, without error, to the prefix text, the
MERGE INTO, USING, ON, WHEN MATCHED THEN and WHEN NOT MATCHED THEN clauses, the
suffix text and the terminator, and to the arguments of the prefix, using, on,
when-matched, when-not-matched and suffix expressions in that order.  The factory
already carries the question-mark format; setting it again changes nothing. -/
theorem C1_builder_chain_renders (t p u o m n s : String) (pa ua oa ma na sa : List Value)
    (ht : t ≠ "") (hp : p ≠ "") (hu : u ≠ "") (ho : o ≠ "") (hm : m ≠ "") (hn : n ≠ "")
    (hs : s ≠ "") :
    (MergeBuilder.Suffix (MergeBuilder.WhenNotMatched (MergeBuilder.WhenMatched
        (MergeBuilder.On (MergeBuilder.Using (MergeBuilder.Prefix (Merge t) p pa)
          (Expr u ua).toSqlizer) (Pred.str o) oa) (Expr m ma).toSqlizer)
          (Expr n na).toSqlizer) s sa).ToSql
      = .returned
          { sqlStr := p ++ " MERGE INTO " ++ t ++ " USING " ++ u ++ " ON " ++ o
              ++ " WHEN MATCHED THEN " ++ m ++ " WHEN NOT MATCHED THEN " ++ n ++ " " ++ s ++ ";",
            args := pa ++ ua ++ oa ++ ma ++ na ++ sa,
            err := none }
    ∧ (MergeBuilder.PlaceholderFormat (MergeBuilder.Suffix (MergeBuilder.WhenNotMatched
        (MergeBuilder.WhenMatched (MergeBuilder.On (MergeBuilder.Using
          (MergeBuilder.Prefix (Merge t) p pa) (Expr u ua).toSqlizer) (Pred.str o) oa)
          (Expr m ma).toSqlizer) (Expr n na).toSqlizer) s sa) Question).ToSql
      = .returned
          { sqlStr := p ++ " MERGE INTO " ++ t ++ " USING " ++ u ++ " ON " ++ o
              ++ " WHEN MATCHED THEN " ++ m ++ " WHEN NOT MATCHED THEN " ++ n ++ " " ++ s ++ ";",
            args := pa ++ ua ++ oa ++ ma ++ na ++ sa,
            err := none } := by
  have hr : ∀ pf : Option PlaceholderFormat,
      mergeData.renderable
        { PlaceholderFormat := pf, RunWith := none, Prefixes := [Expr p pa], Table := t,
          Using := some (Expr u ua).toSqlizer, On := some (newWherePart (Pred.str o) oa),
          WhenMatched := some (Expr m ma).toSqlizer,
          WhenNotMatched := some (Expr n na).toSqlizer,
          Suffixes := [Expr s sa], Output := [], OutputInto := "" } := by
    intro pf
    simp [mergeData.renderable, rendersOk, ht, expr.toSqlizer, expr.ToSql, wherePart.toSqlizer,
      wherePart.ToSql, newWherePart]
  constructor
  · have h := ToSql_eq_assembled _ Question (hr (some Question)) rfl
    simp only [MergeBuilder.ToSql, MergeBuilder.Suffix, MergeBuilder.WhenNotMatched,
      MergeBuilder.WhenMatched, MergeBuilder.On, MergeBuilder.Using, MergeBuilder.Prefix, Merge,
      MergeBuilder.Table, MergeBuilder.PlaceholderFormat, mergeData.zero, List.nil_append]
    rw [h]
    simp [assembledText, bodyText, prefixText, outputText, intoText, suffixText, clauseText,
      clauseArgs, collectedArgs, Question, Expr, expr.toSqlizer, expr.ToSql, wherePart.toSqlizer,
      wherePart.ToSql, newWherePart, String.intercalate, String.intercalate.go,
      String.append_assoc]
  · have h := ToSql_eq_assembled _ Question (hr (some Question)) rfl
    simp only [MergeBuilder.ToSql, MergeBuilder.Suffix, MergeBuilder.WhenNotMatched,
      MergeBuilder.WhenMatched, MergeBuilder.On, MergeBuilder.Using, MergeBuilder.Prefix, Merge,
      MergeBuilder.Table, MergeBuilder.PlaceholderFormat, mergeData.zero, List.nil_append]
    rw [h]
    simp [assembledText, bodyText, prefixText, outputText, intoText, suffixText, clauseText,
      clauseArgs, collectedArgs, Question, Expr, expr.toSqlizer, expr.ToSql, wherePart.toSqlizer,
      wherePart.ToSql, newWherePart, String.intercalate, String.intercalate.go,
      String.append_assoc]

/-- C1 at the inputs of the repository test: the expected SQL and the arguments
0, 1, 2, 3, 4. -/
theorem C1_builder_chain_renders_witness :
    testBuilder.ToSql = .returned
      { sqlStr := "WITH prefix AS ? MERGE INTO test as t USING (SELECT ? as ID) as s ON s.ID = t.ID WHEN MATCHED THEN UPDATE SET c = ? WHEN NOT MATCHED THEN INSERT(d) VALUES(?) RETURNING ?;",
        args := [Value.int 0, Value.int 1, Value.int 2, Value.int 3, Value.int 4],
        err := none } :=
  (C1_builder_chain_renders "test as t" "WITH prefix AS ?" "(SELECT ? as ID) as s" "s.ID = t.ID"
    "UPDATE SET c = ?" "INSERT(d) VALUES(?)" "RETURNING ?"
    [Value.int 0] [Value.int 1] [] [Value.int 2] [Value.int 3] [Value.int 4]
    (by decide) (by decide) (by decide) (by decide) (by decide) (by decide) (by decide)).1

/-- C2: the required fields are validated first, in the order table, using, on, and
the first failure wins.  An empty table gives the missing-target error whatever the
other fields are; a non-empty table with no using source gives the missing-using
error whether or not on is set; a non-empty table with a using source and no on
predicate gives the missing-on error.  No sub-expression is rendered in these cases:
the result is the same whether or not the sub-expressions would fail. -/
theorem C2_validation_order (d : mergeData) :
    (d.Table = "" →
      d.ToSql = .returned
        { sqlStr := "", args := [],
          err := some (Error.errorf "merge statements must specify a target table") })
    ∧ (d.Table ≠ "" → d.Using = none →
      d.ToSql = .returned
        { sqlStr := "", args := [],
          err := some (Error.errorf "merge statements must specify a using statement") })
    ∧ (d.Table ≠ "" → d.Using ≠ none → d.On = none →
      d.ToSql = .returned
        { sqlStr := "", args := [],
          err := some (Error.errorf "merge statements must specify an on statement") }) :=
  ⟨ToSql_table_empty d, ToSql_using_unset d, ToSql_on_unset d⟩

/-- C2 at three inputs whose remaining sub-expressions all fail to render: the
validation error is returned, not the error of a sub-expression. -/
theorem C2_validation_order_witness :
    noTable.ToSql = .returned
        { sqlStr := "", args := [],
          err := some (Error.errorf "merge statements must specify a target table") }
    ∧ noUsing.ToSql = .returned
        { sqlStr := "", args := [],
          err := some (Error.errorf "merge statements must specify a using statement") }
    ∧ noOn.ToSql = .returned
        { sqlStr := "", args := [],
          err := some (Error.errorf "merge statements must specify an on statement") } :=
  ⟨(C2_validation_order noTable).1 rfl,
   (C2_validation_order noUsing).2.1 (by decide) rfl,
   (C2_validation_order noOn).2.2 (by decide) (by simp [noOn]) rfl⟩

/-- C3: no partial SQL text is returned on a validation or rendering failure.  If the
table is empty, using is unset, on is unset, or the rendering of using, on,
when-matched or when-not-matched fails, then `ToSql` returns an error and the
returned SQL string is empty. -/
theorem C3_no_partial_sql (d : mergeData)
    (h : d.Table = "" ∨ d.Using = none ∨ d.On = none
      ∨ ¬ rendersOk d.Using ∨ ¬ rendersOk (d.On.map wherePart.toSqlizer)
      ∨ ¬ rendersOk d.WhenMatched ∨ ¬ rendersOk d.WhenNotMatched) :
    ∃ r, d.ToSql = .returned r ∧ r.err ≠ none ∧ r.sqlStr = "" := by
  have hn : ¬ d.renderable := by
    rintro ⟨ht, hu, ho, ru, ro, rm, rn⟩
    rcases h with h | h | h | h | h | h | h
    · exact ht h
    · exact hu h
    · exact ho h
    · exact h ru
    · exact h ro
    · exact h rm
    · exact h rn
  obtain ⟨e, he⟩ := ToSql_failure d hn
  exact ⟨_, he, by simp, rfl⟩

/-- C3 at the statement of the repository test with a failing when-not-matched
action: the prefix and four clauses were written, and the SQL returned is empty. -/
theorem C3_no_partial_sql_witness :
    ¬ rendersOk brokenAction.WhenNotMatched
    ∧ ∃ r, brokenAction.ToSql = .returned r ∧ r.err ≠ none ∧ r.sqlStr = "" :=
  ⟨by simp [brokenAction, rendersOk, failing],
   C3_no_partial_sql brokenAction
    (Or.inr (Or.inr (Or.inr (Or.inr (Or.inr (Or.inr
      (by simp [brokenAction, rendersOk, failing])))))))⟩

/-- C4: the returned argument list follows the left-to-right order of the
placeholder occurrences.  For every statement data that renders successfully, the
returned arguments are the arguments of each prefix in list order, of using, of on,
of when-matched and when-not-matched when set, and of each suffix in list order;
this is the order of the pieces of the SQL text.  If moreover every expression has
as many markers in its text as it has arguments, and the table, the output columns
and the into target contain no marker, then under the question-mark format the SQL
has as many markers as there are arguments, and the k-th marker lies in the piece
that contributed the k-th argument. -/
theorem C4_argument_order (d : mergeData) (r : SqlResult) (h : d.ToSql = .returned r)
    (hok : r.err = none) :
    r.args = d.Prefixes.flatMap expr.args
        ++ clauseArgs d.Using
        ++ clauseArgs (d.On.map wherePart.toSqlizer)
        ++ clauseArgs d.WhenMatched
        ++ clauseArgs d.WhenNotMatched
        ++ d.Suffixes.flatMap expr.args
    ∧ r.args = concatArgs (pieces d)
    ∧ (d.PlaceholderFormat = some Question → r.sqlStr = concatTexts (pieces d))
    ∧ (d.PlaceholderFormat = some Question →
        (∀ e ∈ d.Prefixes, markers e.sql = e.args.length) →
        (∀ e ∈ d.Suffixes, markers e.sql = e.args.length) →
        balanced d.Using → balanced (d.On.map wherePart.toSqlizer) →
        balanced d.WhenMatched → balanced d.WhenNotMatched →
        markers d.Table = 0 → (∀ c ∈ d.Output, markers c = 0) → markers d.OutputInto = 0 →
        markers r.sqlStr = r.args.length
        ∧ ∀ k, k < r.args.length →
            ∃ pre pc post, pieces d = pre ++ pc :: post
              ∧ markers (concatTexts pre) ≤ k
              ∧ k < markers (concatTexts pre) + markers pc.1
              ∧ (concatArgs pre).length = markers (concatTexts pre)
              ∧ r.args[k]? = pc.2[k - (concatArgs pre).length]?) := by
  obtain ⟨hr, f, hf⟩ := ToSql_success_inv d r h hok
  rw [ToSql_eq_assembled d f hr hf] at h
  injection h with h
  subst h
  refine ⟨rfl, collectedArgs_pieces d, ?_, ?_⟩
  · intro hq
    rw [hq] at hf
    injection hf with hf
    subst hf
    exact assembledText_pieces d
  · intro hq hp hs hu ho hm hn ht hc hi
    rw [hq] at hf
    injection hf with hf
    subst hf
    have hb := pieces_balanced d hp hs hu ho hm hn ht hc hi
    constructor
    · show markers (assembledText d) = (collectedArgs d).length
      rw [assembledText_pieces, collectedArgs_pieces]
      exact markers_concatTexts _ hb
    · intro k hk
      have hk2 : k < (concatArgs (pieces d)).length := by
        rw [← collectedArgs_pieces]
        exact hk
      obtain ⟨pre, pc, post, h1, h2, h3, h4, h5⟩ := aligned (pieces d) hb k hk2
      refine ⟨pre, pc, post, h1, h2, h3, h4, ?_⟩
      show (collectedArgs d)[k]? = _
      rw [collectedArgs_pieces]
      exact h5

/-- C4 at the statement of the repository test: five markers, five arguments. -/
theorem C4_argument_order_witness :
    testBuilder.data.ToSql = .returned
        { sqlStr := "WITH prefix AS ? MERGE INTO test as t USING (SELECT ? as ID) as s ON s.ID = t.ID WHEN MATCHED THEN UPDATE SET c = ? WHEN NOT MATCHED THEN INSERT(d) VALUES(?) RETURNING ?;",
          args := [Value.int 0, Value.int 1, Value.int 2, Value.int 3, Value.int 4],
          err := none }
    ∧ markers "WITH prefix AS ? MERGE INTO test as t USING (SELECT ? as ID) as s ON s.ID = t.ID WHEN MATCHED THEN UPDATE SET c = ? WHEN NOT MATCHED THEN INSERT(d) VALUES(?) RETURNING ?;"
        = [Value.int 0, Value.int 1, Value.int 2, Value.int 3, Value.int 4].length :=
  ⟨rfl,
   ((C4_argument_order testBuilder.data
      { sqlStr := "WITH prefix AS ? MERGE INTO test as t USING (SELECT ? as ID) as s ON s.ID = t.ID WHEN MATCHED THEN UPDATE SET c = ? WHEN NOT MATCHED THEN INSERT(d) VALUES(?) RETURNING ?;",
        args := [Value.int 0, Value.int 1, Value.int 2, Value.int 3, Value.int 4],
        err := none } rfl rfl).2.2.2 rfl
      (by simp [testBuilder, MergeBuilder.Suffix, MergeBuilder.WhenNotMatched,
        MergeBuilder.WhenMatched, MergeBuilder.On, MergeBuilder.Using, MergeBuilder.Prefix, Merge,
        MergeBuilder.Table, MergeBuilder.PlaceholderFormat, mergeData.zero, Expr]; rfl)
      (by simp [testBuilder, MergeBuilder.Suffix, MergeBuilder.WhenNotMatched,
        MergeBuilder.WhenMatched, MergeBuilder.On, MergeBuilder.Using, MergeBuilder.Prefix, Merge,
        MergeBuilder.Table, MergeBuilder.PlaceholderFormat, mergeData.zero, Expr]; rfl)
      rfl rfl rfl rfl rfl
      (by simp [testBuilder, MergeBuilder.Suffix, MergeBuilder.WhenNotMatched,
        MergeBuilder.WhenMatched, MergeBuilder.On, MergeBuilder.Using, MergeBuilder.Prefix, Merge,
        MergeBuilder.Table, MergeBuilder.PlaceholderFormat, mergeData.zero])
      rfl).1⟩

/-- C5: omitting when-matched or when-not-matched omits the keyword and the clause
text, with no residual separator.  With no prefixes, suffixes, output columns or
into target, under the question-mark format, the SQL is exactly the MERGE INTO,
USING and ON clauses and the terminator when neither action is set; the same with
the WHEN MATCHED THEN clause before the terminator when only when-matched is set;
and the same with the WHEN NOT MATCHED THEN clause before the terminator when only
when-not-matched is set. -/
theorem C5_optional_actions (d : mergeData) (u : Sqlizer) (o : wherePart)
    (ht : d.Table ≠ "") (hu : d.Using = some u) (ho : d.On = some o)
    (eu : u.ToSql.err = none) (eo : o.ToSql.err = none)
    (hp : d.Prefixes = []) (hs : d.Suffixes = []) (hc : d.Output = [])
    (hi : d.OutputInto = "") (hf : d.PlaceholderFormat = some Question) :
    (d.WhenMatched = none → d.WhenNotMatched = none →
      d.ToSql = .returned
        { sqlStr := "MERGE INTO " ++ d.Table ++ " USING " ++ u.ToSql.sqlStr
            ++ " ON " ++ o.ToSql.sqlStr ++ ";",
          args := u.ToSql.args ++ o.ToSql.args, err := none })
    ∧ (∀ m : Sqlizer, d.WhenMatched = some m → m.ToSql.err = none → d.WhenNotMatched = none →
      d.ToSql = .returned
        { sqlStr := "MERGE INTO " ++ d.Table ++ " USING " ++ u.ToSql.sqlStr
            ++ " ON " ++ o.ToSql.sqlStr ++ " WHEN MATCHED THEN " ++ m.ToSql.sqlStr ++ ";",
          args := u.ToSql.args ++ o.ToSql.args ++ m.ToSql.args, err := none })
    ∧ (∀ n : Sqlizer, d.WhenMatched = none → d.WhenNotMatched = some n → n.ToSql.err = none →
      d.ToSql = .returned
        { sqlStr := "MERGE INTO " ++ d.Table ++ " USING " ++ u.ToSql.sqlStr
            ++ " ON " ++ o.ToSql.sqlStr ++ " WHEN NOT MATCHED THEN " ++ n.ToSql.sqlStr ++ ";",
          args := u.ToSql.args ++ o.ToSql.args ++ n.ToSql.args, err := none }) := by
  refine ⟨?_, ?_, ?_⟩
  · intro hm hn
    rw [ToSql_eq_assembled d Question
      (renderable_of_fields d u o ht hu ho eu eo (by simp [hm, rendersOk])
        (by simp [hn, rendersOk])) hf]
    simp [assembledText, bodyText, prefixText, outputText, intoText, suffixText, clauseText,
      clauseArgs, collectedArgs, Question, hu, ho, hm, hn, hp, hs, hc, hi, wherePart.toSqlizer,
      String.append_assoc]
  · intro m hm em hn
    rw [ToSql_eq_assembled d Question
      (renderable_of_fields d u o ht hu ho eu eo (by simpa [hm, rendersOk] using em)
        (by simp [hn, rendersOk])) hf]
    simp [assembledText, bodyText, prefixText, outputText, intoText, suffixText, clauseText,
      clauseArgs, collectedArgs, Question, hu, ho, hm, hn, hp, hs, hc, hi, wherePart.toSqlizer,
      String.append_assoc]
  · intro n hm hn en
    rw [ToSql_eq_assembled d Question
      (renderable_of_fields d u o ht hu ho eu eo (by simp [hm, rendersOk])
        (by simpa [hn, rendersOk] using en)) hf]
    simp [assembledText, bodyText, prefixText, outputText, intoText, suffixText, clauseText,
      clauseArgs, collectedArgs, Question, hu, ho, hm, hn, hp, hs, hc, hi, wherePart.toSqlizer,
      String.append_assoc]

/-- C5 at three minimal statements: no action, when-matched only, when-not-matched
only. -/
theorem C5_optional_actions_witness :
    plainMerge.ToSql = .returned
        { sqlStr := "MERGE INTO t USING src ON src.id = t.id;",
          args := [Value.int 1], err := none }
    ∧ matchedOnly.ToSql = .returned
        { sqlStr := "MERGE INTO t USING src ON src.id = t.id WHEN MATCHED THEN UPDATE SET c = ?;",
          args := [Value.int 1, Value.int 2], err := none }
    ∧ notMatchedOnly.ToSql = .returned
        { sqlStr := "MERGE INTO t USING src ON src.id = t.id WHEN NOT MATCHED THEN INSERT(d) VALUES(?);",
          args := [Value.int 1, Value.int 3], err := none } :=
  ⟨(C5_optional_actions plainMerge (Expr "src" [Value.int 1]).toSqlizer
      (newWherePart (Pred.str "src.id = t.id") []) (by decide) rfl rfl rfl rfl rfl rfl rfl rfl
      rfl).1 rfl rfl,
   (C5_optional_actions matchedOnly (Expr "src" [Value.int 1]).toSqlizer
      (newWherePart (Pred.str "src.id = t.id") []) (by decide) rfl rfl rfl rfl rfl rfl rfl rfl
      rfl).2.1 (Expr "UPDATE SET c = ?" [Value.int 2]).toSqlizer rfl rfl rfl,
   (C5_optional_actions notMatchedOnly (Expr "src" [Value.int 1]).toSqlizer
      (newWherePart (Pred.str "src.id = t.id") []) (by decide) rfl rfl rfl rfl rfl rfl rfl rfl
      rfl).2.2 (Expr "INSERT(d) VALUES(?)" [Value.int 3]).toSqlizer rfl rfl rfl⟩

/-- C6: output columns render comma-joined with no spaces and contribute no
arguments.  For every renderable statement data with a non-empty output list, the
text handed to the placeholder rewrite has, immediately after the clauses up to
when-not-matched, the OUTPUT keyword and the comma-joined columns, immediately
followed by the INTO keyword and the target when the into target is non-empty; the
same statement data with an empty output list renders the same text without the
OUTPUT part, and returns the same argument list. -/
theorem C6_output_columns (d : mergeData) (f : PlaceholderFormat)
    (hr : d.renderable) (hf : d.PlaceholderFormat = some f) (hc : d.Output ≠ []) :
    d.ToSql = .returned
        { sqlStr := (f.ReplacePlaceholders (bodyText d ++ " OUTPUT "
            ++ String.intercalate "," d.Output
            ++ (if d.OutputInto = "" then "" else " INTO " ++ d.OutputInto)
            ++ suffixText d ++ ";")).1,
          args := collectedArgs d,
          err := (f.ReplacePlaceholders (bodyText d ++ " OUTPUT "
            ++ String.intercalate "," d.Output
            ++ (if d.OutputInto = "" then "" else " INTO " ++ d.OutputInto)
            ++ suffixText d ++ ";")).2 }
    ∧ mergeData.ToSql { d with Output := [] } = .returned
        { sqlStr := (f.ReplacePlaceholders (bodyText d
            ++ (if d.OutputInto = "" then "" else " INTO " ++ d.OutputInto)
            ++ suffixText d ++ ";")).1,
          args := collectedArgs d,
          err := (f.ReplacePlaceholders (bodyText d
            ++ (if d.OutputInto = "" then "" else " INTO " ++ d.OutputInto)
            ++ suffixText d ++ ";")).2 } := by
  constructor
  · rw [ToSql_eq_assembled d f hr hf]
    simp [assembledText, outputText, intoText, hc, String.append_assoc]
  · have hr0 : mergeData.renderable { d with Output := [] } := hr
    rw [ToSql_eq_assembled { d with Output := [] } f hr0 hf]
    simp [assembledText, outputText, intoText, bodyText, prefixText, suffixText, collectedArgs,
      String.append_assoc]

/-- C6 at two output columns with an into target, under the question-mark format. -/
theorem C6_output_columns_witness :
    outputMerge.ToSql = .returned
        { sqlStr := "MERGE INTO t USING src ON src.id = t.id OUTPUT col1,col2 INTO target;",
          args := [Value.int 1], err := none }
    ∧ mergeData.ToSql { outputMerge with Output := [] } = .returned
        { sqlStr := "MERGE INTO t USING src ON src.id = t.id INTO target;",
          args := [Value.int 1], err := none } :=
  C6_output_columns outputMerge Question
    ⟨by decide, by simp [outputMerge, plainMerge], by simp [outputMerge, plainMerge], rfl, rfl,
      trivial, trivial⟩ rfl (by decide)

/-- C7: placeholder rewriting is one final pass over the whole assembled statement.
For every placeholder format and every renderable statement data, the question-mark
format returns the assembled text unchanged and without error; the given format
returns its rewrite applied once to that very text, the same argument list, and the
error of the rewrite unchanged.  With the sequentially numbering format, the markers
of the repository test are numbered 1 to 5 across prefix, using, when-matched,
when-not-matched and suffix. -/
theorem C7_single_final_rewrite (d : mergeData) (f : PlaceholderFormat) (hr : d.renderable) :
    mergeData.ToSql { d with PlaceholderFormat := some Question }
        = .returned { sqlStr := assembledText d, args := collectedArgs d, err := none }
    ∧ mergeData.ToSql { d with PlaceholderFormat := some f }
        = .returned
            { sqlStr := (f.ReplacePlaceholders (assembledText d)).1,
              args := collectedArgs d,
              err := (f.ReplacePlaceholders (assembledText d)).2 }
    ∧ (MergeBuilder.PlaceholderFormat testBuilder Dollar).ToSql
        = .returned
            { sqlStr := "WITH prefix AS $1 MERGE INTO test as t USING (SELECT $2 as ID) as s ON s.ID = t.ID WHEN MATCHED THEN UPDATE SET c = $3 WHEN NOT MATCHED THEN INSERT(d) VALUES($4) RETURNING $5;",
              args := [Value.int 0, Value.int 1, Value.int 2, Value.int 3, Value.int 4],
              err := none } :=
  ⟨ToSql_eq_assembled { d with PlaceholderFormat := some Question } Question hr rfl,
   ToSql_eq_assembled { d with PlaceholderFormat := some f } f hr rfl,
   testBuilder_Dollar⟩

/-- C7 at the minimal statement with a when-matched action, rewritten by the
sequentially numbering format. -/
theorem C7_single_final_rewrite_witness :
    matchedOnly.renderable
    ∧ mergeData.ToSql { matchedOnly with PlaceholderFormat := some Question }
        = .returned
            { sqlStr := "MERGE INTO t USING src ON src.id = t.id WHEN MATCHED THEN UPDATE SET c = ?;",
              args := [Value.int 1, Value.int 2], err := none }
    ∧ mergeData.ToSql { matchedOnly with PlaceholderFormat := some Dollar }
        = .returned
            { sqlStr := "MERGE INTO t USING src ON src.id = t.id WHEN MATCHED THEN UPDATE SET c = $1;",
              args := [Value.int 1, Value.int 2], err := none } :=
  ⟨⟨by decide, by simp [matchedOnly, plainMerge], by simp [matchedOnly, plainMerge], rfl, rfl,
      rfl, trivial⟩,
   (C7_single_final_rewrite matchedOnly Dollar
      ⟨by decide, by simp [matchedOnly, plainMerge], by simp [matchedOnly, plainMerge], rfl, rfl,
        rfl, trivial⟩).1,
   (C7_single_final_rewrite matchedOnly Dollar
      ⟨by decide, by simp [matchedOnly, plainMerge], by simp [matchedOnly, plainMerge], rfl, rfl,
        rfl, trivial⟩).2.1⟩

/-- C8: every configuration method gives a new snapshot that differs from the
receiver's in exactly one field, or one list appended to.  Table, Using, On,
WhenMatched, WhenNotMatched and PlaceholderFormat set their own field and agree
with the receiver on every other field; Prefix, Suffix and Output append at the end
of their list, keeping the existing elements in order, and agree on every other
field; OutputInto changes only the into target and the output list.  Two children
of one parent are independent: the snapshots made by Table with two names render
each with its own name, and otherwise as the parent does. -/
theorem C8_builder_frames (b : MergeBuilder) :
    (∀ x : String, (b.Table x).data.Table = x
      ∧ ∀ fld, fld ≠ Field.Table → (b.Table x).data.agreeOn b.data fld)
    ∧ (∀ e : Sqlizer, (b.Using e).data.Using = some e
      ∧ ∀ fld, fld ≠ Field.Using → (b.Using e).data.agreeOn b.data fld)
    ∧ (∀ (p : Pred) (as : List Value), (b.On p as).data.On = some (newWherePart p as)
      ∧ ∀ fld, fld ≠ Field.On → (b.On p as).data.agreeOn b.data fld)
    ∧ (∀ e : Sqlizer, (b.WhenMatched e).data.WhenMatched = some e
      ∧ ∀ fld, fld ≠ Field.WhenMatched → (b.WhenMatched e).data.agreeOn b.data fld)
    ∧ (∀ e : Sqlizer, (b.WhenNotMatched e).data.WhenNotMatched = some e
      ∧ ∀ fld, fld ≠ Field.WhenNotMatched → (b.WhenNotMatched e).data.agreeOn b.data fld)
    ∧ (∀ f : PlaceholderFormat, (b.PlaceholderFormat f).data.PlaceholderFormat = some f
      ∧ ∀ fld, fld ≠ Field.PlaceholderFormat →
          (b.PlaceholderFormat f).data.agreeOn b.data fld)
    ∧ (∀ (s : String) (as : List Value),
      (b.Prefix s as).data.Prefixes = b.data.Prefixes ++ [Expr s as]
      ∧ ∀ fld, fld ≠ Field.Prefixes → (b.Prefix s as).data.agreeOn b.data fld)
    ∧ (∀ (s : String) (as : List Value),
      (b.Suffix s as).data.Suffixes = b.data.Suffixes ++ [Expr s as]
      ∧ ∀ fld, fld ≠ Field.Suffixes → (b.Suffix s as).data.agreeOn b.data fld)
    ∧ (∀ cs : List String, (b.Output cs).data.Output = b.data.Output ++ cs
      ∧ ∀ fld, fld ≠ Field.Output → (b.Output cs).data.agreeOn b.data fld)
    ∧ (∀ (x : String) (cs : List String),
      (b.OutputInto x cs).data.OutputInto = x
      ∧ (b.OutputInto x cs).data.Output = b.data.Output ++ cs
      ∧ ∀ fld, fld ≠ Field.OutputInto → fld ≠ Field.Output →
          (b.OutputInto x cs).data.agreeOn b.data fld)
    ∧ (∀ (x y : String) (f : PlaceholderFormat), b.data.PlaceholderFormat = some f →
      (b.Table x).data.renderable → (b.Table y).data.renderable →
      (b.Table x).ToSql = .returned
          { sqlStr := (f.ReplacePlaceholders (prefixText b.data ++ "MERGE INTO " ++ x
              ++ clauseText " USING " b.data.Using
              ++ clauseText " ON " (b.data.On.map wherePart.toSqlizer)
              ++ clauseText " WHEN MATCHED THEN " b.data.WhenMatched
              ++ clauseText " WHEN NOT MATCHED THEN " b.data.WhenNotMatched
              ++ outputText b.data ++ intoText b.data ++ suffixText b.data ++ ";")).1,
            args := collectedArgs b.data,
            err := (f.ReplacePlaceholders (prefixText b.data ++ "MERGE INTO " ++ x
              ++ clauseText " USING " b.data.Using
              ++ clauseText " ON " (b.data.On.map wherePart.toSqlizer)
              ++ clauseText " WHEN MATCHED THEN " b.data.WhenMatched
              ++ clauseText " WHEN NOT MATCHED THEN " b.data.WhenNotMatched
              ++ outputText b.data ++ intoText b.data ++ suffixText b.data ++ ";")).2 }
      ∧ (b.Table y).ToSql = .returned
          { sqlStr := (f.ReplacePlaceholders (prefixText b.data ++ "MERGE INTO " ++ y
              ++ clauseText " USING " b.data.Using
              ++ clauseText " ON " (b.data.On.map wherePart.toSqlizer)
              ++ clauseText " WHEN MATCHED THEN " b.data.WhenMatched
              ++ clauseText " WHEN NOT MATCHED THEN " b.data.WhenNotMatched
              ++ outputText b.data ++ intoText b.data ++ suffixText b.data ++ ";")).1,
            args := collectedArgs b.data,
            err := (f.ReplacePlaceholders (prefixText b.data ++ "MERGE INTO " ++ y
              ++ clauseText " USING " b.data.Using
              ++ clauseText " ON " (b.data.On.map wherePart.toSqlizer)
              ++ clauseText " WHEN MATCHED THEN " b.data.WhenMatched
              ++ clauseText " WHEN NOT MATCHED THEN " b.data.WhenNotMatched
              ++ outputText b.data ++ intoText b.data ++ suffixText b.data ++ ";")).2 }) := by
  refine ⟨?_, ?_, ?_, ?_, ?_, ?_, ?_, ?_, ?_, ?_, ?_⟩
  · intro x
    refine ⟨rfl, ?_⟩
    intro fld h
    cases fld <;> first | exact absurd rfl h | rfl
  · intro e
    refine ⟨rfl, ?_⟩
    intro fld h
    cases fld <;> first | exact absurd rfl h | rfl
  · intro p as
    refine ⟨rfl, ?_⟩
    intro fld h
    cases fld <;> first | exact absurd rfl h | rfl
  · intro e
    refine ⟨rfl, ?_⟩
    intro fld h
    cases fld <;> first | exact absurd rfl h | rfl
  · intro e
    refine ⟨rfl, ?_⟩
    intro fld h
    cases fld <;> first | exact absurd rfl h | rfl
  · intro f
    refine ⟨rfl, ?_⟩
    intro fld h
    cases fld <;> first | exact absurd rfl h | rfl
  · intro s as
    refine ⟨rfl, ?_⟩
    intro fld h
    cases fld <;> first | exact absurd rfl h | rfl
  · intro s as
    refine ⟨rfl, ?_⟩
    intro fld h
    cases fld <;> first | exact absurd rfl h | rfl
  · intro cs
    refine ⟨rfl, ?_⟩
    intro fld h
    cases fld <;> first | exact absurd rfl h | rfl
  · intro x cs
    refine ⟨rfl, rfl, ?_⟩
    intro fld h h2
    cases fld <;> first | exact absurd rfl h | exact absurd rfl h2 | rfl
  · intro x y f hf hx hy
    constructor
    · exact ToSql_eq_assembled (b.Table x).data f hx hf
    · exact ToSql_eq_assembled (b.Table y).data f hy hf

/-- C8 at the builder of the repository test: two children made by Table render
with their own table names, and the parent still renders with its own. -/
theorem C8_builder_frames_witness :
    (MergeBuilder.Table testBuilder "x").ToSql = .returned
        { sqlStr := "WITH prefix AS ? MERGE INTO x USING (SELECT ? as ID) as s ON s.ID = t.ID WHEN MATCHED THEN UPDATE SET c = ? WHEN NOT MATCHED THEN INSERT(d) VALUES(?) RETURNING ?;",
          args := [Value.int 0, Value.int 1, Value.int 2, Value.int 3, Value.int 4],
          err := none }
    ∧ (MergeBuilder.Table testBuilder "y").ToSql = .returned
        { sqlStr := "WITH prefix AS ? MERGE INTO y USING (SELECT ? as ID) as s ON s.ID = t.ID WHEN MATCHED THEN UPDATE SET c = ? WHEN NOT MATCHED THEN INSERT(d) VALUES(?) RETURNING ?;",
          args := [Value.int 0, Value.int 1, Value.int 2, Value.int 3, Value.int 4],
          err := none } :=
  (C8_builder_frames testBuilder).2.2.2.2.2.2.2.2.2.2 "x" "y" Question rfl
    ⟨by decide, by simp [testBuilder, MergeBuilder.Table, MergeBuilder.Suffix,
        MergeBuilder.WhenNotMatched, MergeBuilder.WhenMatched, MergeBuilder.On,
        MergeBuilder.Using],
      by simp [testBuilder, MergeBuilder.Table, MergeBuilder.Suffix,
        MergeBuilder.WhenNotMatched, MergeBuilder.WhenMatched, MergeBuilder.On],
      rfl, rfl, rfl, rfl⟩
    ⟨by decide, by simp [testBuilder, MergeBuilder.Table, MergeBuilder.Suffix,
        MergeBuilder.WhenNotMatched, MergeBuilder.WhenMatched, MergeBuilder.On,
        MergeBuilder.Using],
      by simp [testBuilder, MergeBuilder.Table, MergeBuilder.Suffix,
        MergeBuilder.WhenNotMatched, MergeBuilder.WhenMatched, MergeBuilder.On],
      rfl, rfl, rfl, rfl⟩

/-- C9: Exec and Query fail with RunnerNotSet exactly when no runner is configured,
and the check comes before anything else.  With no runner both return the
RunnerNotSet error and no result, whatever the delegate and whatever the other
fields are; with a runner both return exactly what the delegate returns for that
runner and statement. -/
theorem C9_exec_query_runner {Res Rows : Type}
    (ExecWith : BaseRunner → mergeData → Option Res × Option Error)
    (QueryWith : BaseRunner → mergeData → Option Rows × Option Error) (d : mergeData) :
    (d.RunWith = none →
      d.Exec ExecWith = (none, some Error.RunnerNotSet)
      ∧ d.Query QueryWith = (none, some Error.RunnerNotSet))
    ∧ (∀ r : BaseRunner, d.RunWith = some r →
      d.Exec ExecWith = ExecWith r d ∧ d.Query QueryWith = QueryWith r d) := by
  constructor
  · intro h
    simp [mergeData.Exec, mergeData.Query, h]
  · intro r h
    simp [mergeData.Exec, mergeData.Query, h]

/-- C9 at a statement with no table: without a runner the error is RunnerNotSet,
with a runner the result is the one of the delegate. -/
theorem C9_exec_query_runner_witness :
    (noTable.Exec echoWith = (none, some Error.RunnerNotSet)
      ∧ noTable.Query echoWith = (none, some Error.RunnerNotSet))
    ∧ (mergeData.Exec echoWith { noTable with RunWith := some pooled } = (some "db:", none)
      ∧ mergeData.Query echoWith { noTable with RunWith := some pooled } = (some "db:", none)) :=
  ⟨(C9_exec_query_runner echoWith echoWith noTable).1 rfl,
   (C9_exec_query_runner echoWith echoWith { noTable with RunWith := some pooled }).2 pooled rfl⟩

/-- C10: QueryRow always returns a row.  With no runner the row carries the
RunnerNotSet error; with a runner that lacks the single-row capability it carries
the RunnerNotQueryRunner error; in both cases the delegate is not consulted.  Only
with a runner that has the capability is the statement handed to the delegate. -/
theorem C10_query_row {S : Type} (QueryRowWith : BaseRunner → mergeData → Row S)
    (d : mergeData) :
    (d.RunWith = none →
      d.QueryRow QueryRowWith = { RowScanner := none, err := some Error.RunnerNotSet })
    ∧ (∀ r : BaseRunner, d.RunWith = some r → r.isQueryRower = false →
      d.QueryRow QueryRowWith = { RowScanner := none, err := some Error.RunnerNotQueryRunner })
    ∧ (∀ r : BaseRunner, d.RunWith = some r → r.isQueryRower = true →
      d.QueryRow QueryRowWith = QueryRowWith r d) := by
  refine ⟨?_, ?_, ?_⟩
  · intro h
    simp [mergeData.QueryRow, h]
  · intro r h hq
    simp [mergeData.QueryRow, h, hq]
  · intro r h hq
    simp [mergeData.QueryRow, h, hq]

/-- C10 at a statement with no table, for no runner, a runner without the
capability, and a runner with it. -/
theorem C10_query_row_witness :
    noTable.QueryRow echoRowWith = { RowScanner := none, err := some Error.RunnerNotSet }
    ∧ mergeData.QueryRow echoRowWith { noTable with RunWith := some execOnly }
        = { RowScanner := none, err := some Error.RunnerNotQueryRunner }
    ∧ mergeData.QueryRow echoRowWith { noTable with RunWith := some pooled }
        = { RowScanner := some "db:", err := none } :=
  ⟨(C10_query_row echoRowWith noTable).1 rfl,
   (C10_query_row echoRowWith { noTable with RunWith := some execOnly }).2.1 execOnly rfl rfl,
   (C10_query_row echoRowWith { noTable with RunWith := some pooled }).2.2 pooled rfl rfl⟩

/-- C11: OutputInto is sugar for setting the into target and then appending the
columns to the output list.  For every builder, target and column list, OutputInto
gives the same snapshot, field by field, and the same ToSql result as setting the
into target and then calling Output with the columns; the columns come after the
columns already present, and OutputInto with no columns leaves the output list
unchanged. -/
theorem C11_output_into_sugar (b : MergeBuilder) (x : String) (cs : List String) :
    (∀ fld, (b.OutputInto x cs).data.agreeOn
        (MergeBuilder.Output { data := { b.data with OutputInto := x } } cs).data fld)
    ∧ (b.OutputInto x cs).ToSql
        = (MergeBuilder.Output { data := { b.data with OutputInto := x } } cs).ToSql
    ∧ (b.OutputInto x cs).data.OutputInto = x
    ∧ (b.OutputInto x cs).data.Output = b.data.Output ++ cs
    ∧ (b.OutputInto x []).data.Output = b.data.Output := by
  refine ⟨?_, rfl, rfl, rfl, ?_⟩
  · intro fld
    cases fld <;> rfl
  · simp [MergeBuilder.OutputInto, MergeBuilder.Output]

/-- C12: the two calling conventions of On are equivalent.  For every builder,
predicate string and argument list, On with the string and its arguments and On
with the expression made of them give the same ToSql result; when the statement
renders, the on clause contributes the string after the ON keyword and the
arguments between those of using and those of when-matched. -/
theorem C12_on_conventions (b : MergeBuilder) (s : String) (as : List Value) :
    (b.On (Pred.str s) as).ToSql = (b.On (Pred.sqlizer (Expr s as).toSqlizer) []).ToSql
    ∧ (∀ f : PlaceholderFormat, b.data.PlaceholderFormat = some f →
        (b.On (Pred.str s) as).data.renderable →
        (b.On (Pred.sqlizer (Expr s as).toSqlizer) []).ToSql = .returned
          { sqlStr := (f.ReplacePlaceholders (prefixText b.data ++ "MERGE INTO " ++ b.data.Table
              ++ clauseText " USING " b.data.Using
              ++ " ON " ++ s
              ++ clauseText " WHEN MATCHED THEN " b.data.WhenMatched
              ++ clauseText " WHEN NOT MATCHED THEN " b.data.WhenNotMatched
              ++ outputText b.data ++ intoText b.data ++ suffixText b.data ++ ";")).1,
            args := b.data.Prefixes.flatMap expr.args ++ clauseArgs b.data.Using ++ as
              ++ clauseArgs b.data.WhenMatched ++ clauseArgs b.data.WhenNotMatched
              ++ b.data.Suffixes.flatMap expr.args,
            err := (f.ReplacePlaceholders (prefixText b.data ++ "MERGE INTO " ++ b.data.Table
              ++ clauseText " USING " b.data.Using
              ++ " ON " ++ s
              ++ clauseText " WHEN MATCHED THEN " b.data.WhenMatched
              ++ clauseText " WHEN NOT MATCHED THEN " b.data.WhenNotMatched
              ++ outputText b.data ++ intoText b.data ++ suffixText b.data ++ ";")).2 }) := by
  have heq : (b.On (Pred.str s) as).ToSql
      = (b.On (Pred.sqlizer (Expr s as).toSqlizer) []).ToSql :=
    ToSql_congr_On b.data (newWherePart (Pred.str s) as)
      (newWherePart (Pred.sqlizer (Expr s as).toSqlizer) []) rfl
  refine ⟨heq, ?_⟩
  intro f hf hr
  rw [← heq]
  have h := ToSql_eq_assembled (b.On (Pred.str s) as).data f hr hf
  simp only [MergeBuilder.ToSql]
  rw [h]
  simp [assembledText, bodyText, prefixText, outputText, intoText, suffixText, clauseText,
    clauseArgs, collectedArgs, MergeBuilder.On, newWherePart, wherePart.toSqlizer,
    wherePart.ToSql, String.append_assoc]

/-- C12 at the builder of the repository test, with an on predicate that has a
marker and an argument, given as an expression. -/
theorem C12_on_conventions_witness :
    (MergeBuilder.On testBuilder (Pred.sqlizer (Expr "s.ID = ?" [Value.int 5]).toSqlizer) []).ToSql
      = .returned
        { sqlStr := "WITH prefix AS ? MERGE INTO test as t USING (SELECT ? as ID) as s ON s.ID = ? WHEN MATCHED THEN UPDATE SET c = ? WHEN NOT MATCHED THEN INSERT(d) VALUES(?) RETURNING ?;",
          args := [Value.int 0, Value.int 1, Value.int 5, Value.int 2, Value.int 3, Value.int 4],
          err := none } :=
  (C12_on_conventions testBuilder "s.ID = ?" [Value.int 5]).2 Question rfl
    ⟨by decide, by simp [testBuilder, MergeBuilder.On, MergeBuilder.Suffix,
        MergeBuilder.WhenNotMatched, MergeBuilder.WhenMatched, MergeBuilder.Using],
      by simp [MergeBuilder.On], rfl, rfl, rfl, rfl⟩

/-- C13: prefixes and suffixes are rendered in the order they were added, joined by
one space and attached to the statement body by one space.  Under the question-mark
format, a renderable statement with prefixes starts with the prefix texts joined by
a space, one space, and MERGE INTO; with no prefixes it starts with MERGE INTO.
With suffixes it ends with one space, the suffix texts joined by a space, and the
terminator; with no suffixes the renderer writes nothing between the statement body
and the terminator.  Two Prefix calls, or two Suffix calls, append their expressions
in call order, so the arguments of the first come before those of the second. -/
theorem C13_prefixes_suffixes (d : mergeData) (hr : d.renderable)
    (hf : d.PlaceholderFormat = some Question) :
    (d.Prefixes ≠ [] →
      d.ToSql = .returned
        { sqlStr := String.intercalate " " (d.Prefixes.map expr.sql) ++ " " ++ coreText d
            ++ suffixText d ++ ";",
          args := collectedArgs d, err := none })
    ∧ (d.Prefixes = [] →
      d.ToSql = .returned
        { sqlStr := coreText d ++ suffixText d ++ ";",
          args := collectedArgs d, err := none })
    ∧ (d.Suffixes ≠ [] →
      d.ToSql = .returned
        { sqlStr := prefixText d ++ coreText d ++ " "
            ++ String.intercalate " " (d.Suffixes.map expr.sql) ++ ";",
          args := collectedArgs d, err := none })
    ∧ (d.Suffixes = [] →
      d.ToSql = .returned
        { sqlStr := prefixText d ++ coreText d ++ ";",
          args := collectedArgs d, err := none })
    ∧ ∀ (b : MergeBuilder) (p q : String) (pa qa : List Value),
        ((b.Prefix p pa).Prefix q qa).data.Prefixes = b.data.Prefixes ++ [Expr p pa, Expr q qa]
        ∧ ((b.Suffix p pa).Suffix q qa).data.Suffixes
            = b.data.Suffixes ++ [Expr p pa, Expr q qa] := by
  have h := ToSql_eq_assembled d Question hr hf
  rw [assembledText_core] at h
  refine ⟨?_, ?_, ?_, ?_, ?_⟩
  · intro hp
    rw [h]
    simp [prefixText, hp, Question, String.append_assoc]
  · intro hp
    rw [h]
    simp [prefixText, hp, Question]
  · intro hs
    rw [h]
    simp [suffixText, hs, Question, String.append_assoc]
  · intro hs
    rw [h]
    simp [suffixText, hs, Question]
  · intro b p q pa qa
    simp [MergeBuilder.Prefix, MergeBuilder.Suffix]

/-- C13 at a statement built with two prefixes and two suffixes. -/
theorem C13_prefixes_suffixes_witness :
    twoEnds.data.ToSql = .returned
        { sqlStr := "WITH a AS ? WITH b AS ? MERGE INTO t USING src ON src.id = t.id RETURNING ? OPTION ?;",
          args := [Value.int 7, Value.int 8, Value.int 1, Value.int 9, Value.int 10],
          err := none } :=
  (C13_prefixes_suffixes twoEnds.data
    ⟨by decide, by simp [twoEnds, MergeBuilder.Suffix, MergeBuilder.Prefix, MergeBuilder.On,
        MergeBuilder.Using],
      by simp [twoEnds, MergeBuilder.Suffix, MergeBuilder.Prefix, MergeBuilder.On],
      rfl, rfl, trivial, trivial⟩ rfl).1
    (by simp [twoEnds, MergeBuilder.Suffix, MergeBuilder.Prefix, MergeBuilder.On,
      MergeBuilder.Using, Merge, MergeBuilder.Table, MergeBuilder.PlaceholderFormat,
      mergeData.zero])

/-- C14: the rendered clause order is fixed and does not depend on the order of the
configuration calls.  For every builder and any two configuration calls that set or
append to different fields, applying them in either order gives the same snapshot,
field by field, and the same ToSql result; and every renderable statement places
prefixes, MERGE INTO, USING, ON, WHEN MATCHED, WHEN NOT MATCHED, OUTPUT, INTO and
suffixes in that order. -/
theorem C14_call_order_irrelevant (b : MergeBuilder) (c₁ c₂ : Call)
    (h : ∀ fld ∈ c₁.touches, fld ∉ c₂.touches) :
    (∀ fld, (c₁.apply (c₂.apply b)).data.agreeOn (c₂.apply (c₁.apply b)).data fld)
    ∧ (c₁.apply (c₂.apply b)).ToSql = (c₂.apply (c₁.apply b)).ToSql
    ∧ (∀ (d : mergeData) (f : PlaceholderFormat), d.renderable →
        d.PlaceholderFormat = some f →
        d.ToSql = .returned
          { sqlStr := (f.ReplacePlaceholders (prefixText d ++ "MERGE INTO " ++ d.Table
              ++ clauseText " USING " d.Using
              ++ clauseText " ON " (d.On.map wherePart.toSqlizer)
              ++ clauseText " WHEN MATCHED THEN " d.WhenMatched
              ++ clauseText " WHEN NOT MATCHED THEN " d.WhenNotMatched
              ++ outputText d ++ intoText d ++ suffixText d ++ ";")).1,
            args := collectedArgs d,
            err := (f.ReplacePlaceholders (prefixText d ++ "MERGE INTO " ++ d.Table
              ++ clauseText " USING " d.Using
              ++ clauseText " ON " (d.On.map wherePart.toSqlizer)
              ++ clauseText " WHEN MATCHED THEN " d.WhenMatched
              ++ clauseText " WHEN NOT MATCHED THEN " d.WhenNotMatched
              ++ outputText d ++ intoText d ++ suffixText d ++ ";")).2 }) := by
  have heq := Call.apply_comm b c₁ c₂ h
  refine ⟨?_, by rw [heq], ?_⟩
  · intro fld
    rw [heq]
    cases fld <;> rfl
  · intro d f hr hf
    exact ToSql_eq_assembled d f hr hf

/-- C14 at Using and On applied in both orders; the calls of the repository test in
a shuffled order render as the test does. -/
theorem C14_call_order_irrelevant_witness :
    (MergeBuilder.Using (MergeBuilder.On (Merge "t") (Pred.str "src.id = t.id") [])
        (Expr "src" [Value.int 1]).toSqlizer).ToSql
      = (MergeBuilder.On (MergeBuilder.Using (Merge "t") (Expr "src" [Value.int 1]).toSqlizer)
          (Pred.str "src.id = t.id") []).ToSql
    ∧ shuffledBuilder.ToSql = testBuilder.ToSql :=
  ⟨(C14_call_order_irrelevant (Merge "t") (Call.Using (Expr "src" [Value.int 1]).toSqlizer)
      (Call.On (Pred.str "src.id = t.id") []) (by decide)).2.1,
   rfl⟩

/-- C15: with a placeholder format set, ToSql always returns, and it returns no
error exactly when the table is non-empty, using and on are set, each of using, on,
when-matched and when-not-matched renders without error, and the rewrite of the
assembled text succeeds.  Prefixes, suffixes, output columns and the into target
cannot make it fail.  When several sub-expressions fail, the error is that of the
first one in the order using, on, when-matched, when-not-matched, whatever the
later ones are. -/
theorem C15_success_iff (d : mergeData) (f : PlaceholderFormat)
    (hf : d.PlaceholderFormat = some f) :
    (∃ r, d.ToSql = .returned r)
    ∧ ((∃ r, d.ToSql = .returned r ∧ r.err = none)
        ↔ (d.Table ≠ "" ∧ d.Using ≠ none ∧ d.On ≠ none
            ∧ rendersOk d.Using ∧ rendersOk (d.On.map wherePart.toSqlizer)
            ∧ rendersOk d.WhenMatched ∧ rendersOk d.WhenNotMatched
            ∧ (f.ReplacePlaceholders (assembledText d)).2 = none))
    ∧ (∀ (ps ss : exprs) (cs : List String) (x : String),
        (∃ r, mergeData.ToSql { d with PlaceholderFormat := some Question, Prefixes := ps,
                                       Suffixes := ss, Output := cs, OutputInto := x }
              = .returned r ∧ r.err = none)
          ↔ (∃ r, mergeData.ToSql { d with PlaceholderFormat := some Question }
              = .returned r ∧ r.err = none))
    ∧ (∀ (u : Sqlizer) (o : wherePart) (e : Error),
        d.Table ≠ "" → d.Using = some u → d.On = some o → u.ToSql.err = some e →
        ∃ r, d.ToSql = .returned r ∧ r.err = some e)
    ∧ (∀ (u : Sqlizer) (o : wherePart) (e : Error),
        d.Table ≠ "" → d.Using = some u → d.On = some o → u.ToSql.err = none →
        o.ToSql.err = some e →
        ∃ r, d.ToSql = .returned r ∧ r.err = some e)
    ∧ (∀ (u : Sqlizer) (o : wherePart) (m : Sqlizer) (e : Error),
        d.Table ≠ "" → d.Using = some u → d.On = some o → d.WhenMatched = some m →
        u.ToSql.err = none → o.ToSql.err = none → m.ToSql.err = some e →
        ∃ r, d.ToSql = .returned r ∧ r.err = some e)
    ∧ (∀ (u : Sqlizer) (o : wherePart) (n : Sqlizer) (e : Error),
        d.Table ≠ "" → d.Using = some u → d.On = some o → d.WhenNotMatched = some n →
        u.ToSql.err = none → o.ToSql.err = none → rendersOk d.WhenMatched →
        n.ToSql.err = some e →
        ∃ r, d.ToSql = .returned r ∧ r.err = some e) := by
  refine ⟨ToSql_returns d f hf, ?_, ?_, ?_, ?_, ?_, ?_⟩
  · rw [ToSql_succeeds_iff d f hf]
    simp only [mergeData.renderable, and_assoc]
  · intro ps ss cs x
    rw [ToSql_succeeds_iff _ Question rfl, ToSql_succeeds_iff _ Question rfl]
    simp only [mergeData.renderable, Question]
  · intro u o e ht hu ho eu
    exact ⟨_, ToSql_using_fails d u o e ht hu ho eu, rfl⟩
  · intro u o e ht hu ho eu eo
    exact ⟨_, ToSql_on_fails d u o e ht hu ho eu eo, rfl⟩
  · intro u o m e ht hu ho hm eu eo em
    exact ⟨_, ToSql_whenMatched_fails d u o m e ht hu ho hm eu eo em, rfl⟩
  · intro u o n e ht hu ho hn eu eo rm en
    exact ⟨_, ToSql_whenNotMatched_fails d u o n e ht hu ho hn eu eo rm en, rfl⟩

/-- C15 at a statement whose on predicate and two actions all fail: the error is
the one of the on predicate. -/
theorem C15_success_iff_witness :
    ∃ r, threeFailures.ToSql = .returned r ∧ r.err = some (Error.errorf "on") :=
  (C15_success_iff threeFailures Question rfl).2.2.2.2.1
    (Expr "src" [Value.int 1]).toSqlizer (newWherePart (Pred.sqlizer (failingWith "on")) [])
    (Error.errorf "on") (by decide) rfl rfl rfl rfl

/-- C16: the INTO target is rendered whenever the into target is non-empty,
independently of the output list.  Under the question-mark format, a renderable
statement with no output columns, a non-empty into target and no suffixes ends
with INTO, the target and the terminator directly after the clauses, with no OUTPUT
keyword; a renderable statement with output columns and an empty into target
renders OUTPUT and the columns with no INTO.  OutputInto with no columns sets the
target and leaves the output list as it was. -/
theorem C16_into_without_output (d : mergeData) (hr : d.renderable)
    (hf : d.PlaceholderFormat = some Question) :
    (d.Output = [] → d.OutputInto ≠ "" → d.Suffixes = [] →
      d.ToSql = .returned
        { sqlStr := bodyText d ++ " INTO " ++ d.OutputInto ++ ";",
          args := collectedArgs d, err := none })
    ∧ (d.Output ≠ [] → d.OutputInto = "" →
      d.ToSql = .returned
        { sqlStr := bodyText d ++ " OUTPUT " ++ String.intercalate "," d.Output
            ++ suffixText d ++ ";",
          args := collectedArgs d, err := none })
    ∧ ∀ (b : MergeBuilder) (x : String),
        (b.OutputInto x []).data.OutputInto = x
        ∧ (b.OutputInto x []).data.Output = b.data.Output := by
  refine ⟨?_, ?_, ?_⟩
  · intro hc hi hs
    rw [ToSql_eq_assembled d Question hr hf]
    simp [assembledText, outputText, intoText, suffixText, hc, hi, hs, Question,
      String.append_assoc]
  · intro hc hi
    rw [ToSql_eq_assembled d Question hr hf]
    simp [assembledText, outputText, intoText, hc, hi, Question, String.append_assoc]
  · intro b x
    simp [MergeBuilder.OutputInto, MergeBuilder.Output]

/-- C16 at the minimal statement after OutputInto with no columns, and at the
minimal statement with one output column and no target. -/
theorem C16_into_without_output_witness :
    intoOnly.ToSql = .returned
        { sqlStr := "MERGE INTO t USING src ON src.id = t.id INTO target;",
          args := [Value.int 1], err := none }
    ∧ outputOnly.ToSql = .returned
        { sqlStr := "MERGE INTO t USING src ON src.id = t.id OUTPUT col1;",
          args := [Value.int 1], err := none } :=
  ⟨(C16_into_without_output intoOnly.data
      ⟨by decide, by simp [intoOnly, MergeBuilder.OutputInto, MergeBuilder.Output, plainMerge],
        by simp [intoOnly, MergeBuilder.OutputInto, MergeBuilder.Output, plainMerge],
        rfl, rfl, trivial, trivial⟩ rfl).1 rfl (by decide) rfl,
   (C16_into_without_output outputOnly
      ⟨by decide, by simp [outputOnly, plainMerge], by simp [outputOnly, plainMerge],
        rfl, rfl, trivial, trivial⟩ rfl).2.1 (by decide) rfl⟩

/-- C17: single-valued fields are last-write-wins, list fields accumulate.  Two
successive calls of Table, Using, On, WhenMatched, WhenNotMatched or
PlaceholderFormat give the snapshot of the second call alone, and two calls of
OutputInto keep the second target; so only the last value is rendered and only its
arguments are returned.  Two calls of Prefix, Suffix or Output keep both elements
in call order.  In particular the factory followed by Table is the factory at the
new table, and renders MERGE INTO with the new table. -/
theorem C17_last_write_wins (b : MergeBuilder) :
    (∀ x y : String, (b.Table x).Table y = b.Table y)
    ∧ (∀ e₁ e₂ : Sqlizer, (b.Using e₁).Using e₂ = b.Using e₂)
    ∧ (∀ (p₁ p₂ : Pred) (a₁ a₂ : List Value), (b.On p₁ a₁).On p₂ a₂ = b.On p₂ a₂)
    ∧ (∀ e₁ e₂ : Sqlizer, (b.WhenMatched e₁).WhenMatched e₂ = b.WhenMatched e₂)
    ∧ (∀ e₁ e₂ : Sqlizer, (b.WhenNotMatched e₁).WhenNotMatched e₂ = b.WhenNotMatched e₂)
    ∧ (∀ f₁ f₂ : PlaceholderFormat,
        (b.PlaceholderFormat f₁).PlaceholderFormat f₂ = b.PlaceholderFormat f₂)
    ∧ (∀ (x y : String) (cs ds : List String),
        ((b.OutputInto x cs).OutputInto y ds).data.OutputInto = y
        ∧ ((b.OutputInto x cs).OutputInto y ds).data.Output = b.data.Output ++ cs ++ ds)
    ∧ (∀ (p q : String) (pa qa : List Value),
        ((b.Prefix p pa).Prefix q qa).data.Prefixes = b.data.Prefixes ++ [Expr p pa, Expr q qa])
    ∧ (∀ (p q : String) (pa qa : List Value),
        ((b.Suffix p pa).Suffix q qa).data.Suffixes = b.data.Suffixes ++ [Expr p pa, Expr q qa])
    ∧ (∀ cs ds : List String, ((b.Output cs).Output ds).data.Output = b.data.Output ++ cs ++ ds)
    ∧ (∀ e₁ e₂ : Sqlizer, ((b.Using e₁).Using e₂).ToSql = (b.Using e₂).ToSql)
    ∧ (∀ t t₂ : String, (Merge t).Table t₂ = Merge t₂)
    ∧ (∀ (t t₂ o : String) (u : Sqlizer) (oa : List Value), t₂ ≠ "" → u.ToSql.err = none →
        (MergeBuilder.On (MergeBuilder.Using ((Merge t).Table t₂) u) (Pred.str o) oa).ToSql
          = .returned
              { sqlStr := "MERGE INTO " ++ t₂ ++ " USING " ++ u.ToSql.sqlStr ++ " ON " ++ o ++ ";",
                args := u.ToSql.args ++ oa, err := none }) := by
  refine ⟨fun _ _ => rfl, fun _ _ => rfl, fun _ _ _ _ => rfl, fun _ _ => rfl, fun _ _ => rfl,
    fun _ _ => rfl, ?_, ?_, ?_, ?_, fun _ _ => rfl, fun _ _ => rfl, ?_⟩
  · intro x y cs ds
    exact ⟨rfl, rfl⟩
  · intro p q pa qa
    simp [MergeBuilder.Prefix]
  · intro p q pa qa
    simp [MergeBuilder.Suffix]
  · intro cs ds
    simp [MergeBuilder.Output]
  · intro t t₂ o u oa ht hu
    have hr : (MergeBuilder.On (MergeBuilder.Using ((Merge t).Table t₂) u)
        (Pred.str o) oa).data.renderable :=
      ⟨ht, by simp [MergeBuilder.On, MergeBuilder.Using], by simp [MergeBuilder.On], hu, rfl,
        trivial, trivial⟩
    simp only [MergeBuilder.ToSql]
    rw [ToSql_eq_assembled _ Question hr rfl]
    simp [assembledText, bodyText, prefixText, outputText, intoText, suffixText, clauseText,
      clauseArgs, collectedArgs, Question, MergeBuilder.On, MergeBuilder.Using,
      MergeBuilder.Table, Merge, MergeBuilder.PlaceholderFormat, mergeData.zero, newWherePart,
      wherePart.toSqlizer, wherePart.ToSql, String.append_assoc]

/-- C17 at the factory with one table followed by Table with another. -/
theorem C17_last_write_wins_witness :
    (MergeBuilder.On (MergeBuilder.Using ((Merge "old").Table "new")
        (Expr "src" [Value.int 1]).toSqlizer) (Pred.str "src.id = new.id") []).ToSql
      = .returned
          { sqlStr := "MERGE INTO new USING src ON src.id = new.id;",
            args := [Value.int 1], err := none } :=
  (C17_last_write_wins (Merge "old")).2.2.2.2.2.2.2.2.2.2.2.2 "old" "new" "src.id = new.id"
    (Expr "src" [Value.int 1]).toSqlizer [] (by decide) rfl

/-- C18: the terminator is always appended last.  For every statement data on
which ToSql succeeds under the question-mark format, the SQL is the statement text
followed by the terminator, so its last character is the semicolon, which comes
after the suffixes when there are any; and the renderer itself writes exactly one
semicolon: the SQL has one semicolon more than the texts supplied by the caller. -/
theorem C18_terminator_last (d : mergeData) (r : SqlResult) (h : d.ToSql = .returned r)
    (hok : r.err = none) (hf : d.PlaceholderFormat = some Question) :
    r.sqlStr = bodyText d ++ outputText d ++ intoText d ++ suffixText d ++ ";"
    ∧ r.sqlStr.data.getLast? = some ';'
    ∧ (d.Suffixes ≠ [] →
        r.sqlStr = bodyText d ++ outputText d ++ intoText d ++ " "
          ++ String.intercalate " " (d.Suffixes.map expr.sql) ++ ";")
    ∧ semicolons r.sqlStr = ((callerTexts d).map semicolons).sum + 1 := by
  obtain ⟨hr, f, hf2⟩ := ToSql_success_inv d r h hok
  rw [ToSql_eq_assembled d Question hr hf] at h
  injection h with h
  subst h
  refine ⟨rfl, ?_, ?_, ?_⟩
  · show (assembledText d).data.getLast? = some ';'
    simp [assembledText, String.data_append]
  · intro hs
    show assembledText d = _
    simp [assembledText, suffixText, hs, String.append_assoc]
  · exact semicolons_assembledText d

/-- C18 at the statement of the repository test, whose texts have no semicolon. -/
theorem C18_terminator_last_witness :
    testBuilder.data.ToSql = .returned
        { sqlStr := "WITH prefix AS ? MERGE INTO test as t USING (SELECT ? as ID) as s ON s.ID = t.ID WHEN MATCHED THEN UPDATE SET c = ? WHEN NOT MATCHED THEN INSERT(d) VALUES(?) RETURNING ?;",
          args := [Value.int 0, Value.int 1, Value.int 2, Value.int 3, Value.int 4],
          err := none }
    ∧ "WITH prefix AS ? MERGE INTO test as t USING (SELECT ? as ID) as s ON s.ID = t.ID WHEN MATCHED THEN UPDATE SET c = ? WHEN NOT MATCHED THEN INSERT(d) VALUES(?) RETURNING ?;".data.getLast?
        = some ';'
    ∧ semicolons "WITH prefix AS ? MERGE INTO test as t USING (SELECT ? as ID) as s ON s.ID = t.ID WHEN MATCHED THEN UPDATE SET c = ? WHEN NOT MATCHED THEN INSERT(d) VALUES(?) RETURNING ?;"
        = 0 + 1 :=
  ⟨rfl,
   (C18_terminator_last testBuilder.data
      { sqlStr := "WITH prefix AS ? MERGE INTO test as t USING (SELECT ? as ID) as s ON s.ID = t.ID WHEN MATCHED THEN UPDATE SET c = ? WHEN NOT MATCHED THEN INSERT(d) VALUES(?) RETURNING ?;",
        args := [Value.int 0, Value.int 1, Value.int 2, Value.int 3, Value.int 4],
        err := none } rfl rfl rfl).2.1,
   (C18_terminator_last testBuilder.data
      { sqlStr := "WITH prefix AS ? MERGE INTO test as t USING (SELECT ? as ID) as s ON s.ID = t.ID WHEN MATCHED THEN UPDATE SET c = ? WHEN NOT MATCHED THEN INSERT(d) VALUES(?) RETURNING ?;",
        args := [Value.int 0, Value.int 1, Value.int 2, Value.int 3, Value.int 4],
        err := none } rfl rfl rfl).2.2.2⟩

end Squirrel
